import Mathlib

/-!
Verification of the Vercel HLS proxy (`src/api/proxy.js`).

The source file contains two near-duplicate handler implementations
(referred to below as implementation 1 — lines 1-264, with
`getProxyBaseUrl` and `rewriteUriInTag` — and implementation 2 —
lines 265-404).  Both are embedded here as pure functions.  The
JavaScript runtime primitives used by the code (`encodeURIComponent`,
`decodeURIComponent`, `new URL`, `String.prototype.trim`, `split`,
`replace`, …) are modelled as executable Lean functions; the single
outbound `axios` call is modelled as an oracle argument mapping the
outbound header list to either an upstream response or an axios error.
-/

/-! ## Percent coding: `encodeURIComponent` / `decodeURIComponent` -/

/-- Uppercase hexadecimal digit, as produced by `encodeURIComponent`. -/
def hexChar (n : Nat) : Char :=
  if n < 10 then Char.ofNat (48 + n) else Char.ofNat (55 + n)

/-- Value of a hexadecimal digit (both cases accepted, as in JS). -/
def hexVal (c : Char) : Option Nat :=
  if 48 ≤ c.toNat ∧ c.toNat ≤ 57 then some (c.toNat - 48)
  else if 65 ≤ c.toNat ∧ c.toNat ≤ 70 then some (c.toNat - 55)
  else if 97 ≤ c.toNat ∧ c.toNat ≤ 102 then some (c.toNat - 87)
  else none

/-- Characters `encodeURIComponent` leaves unescaped:
`A-Z a-z 0-9 - _ . ! ~ * ' ( )`. -/
def isUnreservedChar (c : Char) : Bool :=
  c.isAlpha || c.isDigit || c = '-' || c = '_' || c = '.' ||
  c = '!' || c = '~' || c = '*' || c = '\'' || c = '(' || c = ')'

/-- UTF-8 bytes of a code point. -/
def utf8Bytes (n : Nat) : List Nat :=
  if n < 128 then [n]
  else if n < 2048 then [192 + n / 64, 128 + n % 64]
  else if n < 65536 then [224 + n / 4096, 128 + (n / 64) % 64, 128 + n % 64]
  else [240 + n / 262144, 128 + (n / 4096) % 64, 128 + (n / 64) % 64, 128 + n % 64]

/-- `%XX` escape of one byte. -/
def percentByte (b : Nat) : List Char :=
  ['%', hexChar (b / 16), hexChar (b % 16)]

/-- Encoding of a single character by `encodeURIComponent`. -/
def encodeChar (c : Char) : List Char :=
  if isUnreservedChar c then [c]
  else (utf8Bytes c.toNat).foldr (fun b acc => percentByte b ++ acc) []

def encodeList (l : List Char) : List Char :=
  l.foldr (fun c acc => encodeChar c ++ acc) []

/-- Model of JavaScript `encodeURIComponent`. -/
def encodeURIComponent (s : String) : String :=
  String.mk (encodeList s.data)

/-- A token of percent-decoding phase 1: either a plain character or the
byte value of one `%XX` escape. -/
abbrev Tok : Type := Char ⊕ Nat

/-- Phase 1 of `decodeURIComponent`: turn every `%XX` escape into a byte
token; fail (URIError) on a malformed escape. -/
def pctTokens : List Char → Option (List Tok)
  | [] => some []
  | '%' :: h1 :: h2 :: rest =>
    match hexVal h1, hexVal h2 with
    | some a, some b => (pctTokens rest).map (fun t => Sum.inr (16 * a + b) :: t)
    | _, _ => none
  | ['%'] => none
  | ['%', _] => none
  | c :: rest => (pctTokens rest).map (fun t => Sum.inl c :: t)

/-- Phase 2 of `decodeURIComponent`: strict UTF-8 decoding of byte tokens.
The state carries an unfinished code point, the number of continuation
bytes still expected, and the minimal code point admissible for the
sequence length (overlong rejection). -/
def utf8Run : Option (Nat × Nat × Nat) → List Tok → Option (List Char)
  | none, [] => some []
  | none, Sum.inl c :: rest => (utf8Run none rest).map (fun t => c :: t)
  | none, Sum.inr b :: rest =>
    if b < 128 then (utf8Run none rest).map (fun t => Char.ofNat b :: t)
    else if 194 ≤ b ∧ b ≤ 223 then utf8Run (some (b - 192, 1, 128)) rest
    else if 224 ≤ b ∧ b ≤ 239 then utf8Run (some (b - 224, 2, 2048)) rest
    else if 240 ≤ b ∧ b ≤ 247 then utf8Run (some (b - 240, 3, 65536)) rest
    else none
  | some _, [] => none
  | some _, Sum.inl _ :: _ => none
  | some (cp, k, m), Sum.inr b :: rest =>
    if 128 ≤ b ∧ b ≤ 191 then
      if k = 1 then
        if m ≤ cp * 64 + (b - 128) ∧ cp * 64 + (b - 128) ≤ 1114111 ∧
            ¬ (55296 ≤ cp * 64 + (b - 128) ∧ cp * 64 + (b - 128) ≤ 57343) then
          (utf8Run none rest).map (fun t => Char.ofNat (cp * 64 + (b - 128)) :: t)
        else none
      else utf8Run (some (cp * 64 + (b - 128), k - 1, m)) rest
    else none

def decodeList (l : List Char) : Option (List Char) :=
  (pctTokens l).bind (utf8Run none)

/-- Model of JavaScript `decodeURIComponent`: `none` models a thrown
`URIError` ("URI malformed"). -/
def decodeURIComponent (s : String) : Option String :=
  (decodeList s.data).map String.mk

/-! ### Roundtrip: `decodeURIComponent (encodeURIComponent s) = some s` -/

theorem char_ofNat_toNat (c : Char) : Char.ofNat c.toNat = c := by
  rcases c with ⟨v, h⟩
  simp only [Char.ofNat, Char.toNat]
  rw [dif_pos h]
  simp only [Char.ofNatAux]
  apply Char.ext
  rfl

theorem char_valid_nat (c : Char) :
    c.toNat < 55296 ∨ (57343 < c.toNat ∧ c.toNat < 1114112) := c.valid

theorem hexVal_hexChar (n : Nat) (h : n < 16) : hexVal (hexChar n) = some n := by
  interval_cases n <;> decide

/-- Token sequence produced for one encoded character. -/
def charToks (c : Char) : List Tok :=
  if isUnreservedChar c then [Sum.inl c]
  else (utf8Bytes c.toNat).map Sum.inr

def tokList (l : List Char) : List Tok :=
  l.foldr (fun c acc => charToks c ++ acc) []

theorem pctTokens_cons_ne (c : Char) (l : List Char) (h : ¬ c = '%') :
    pctTokens (c :: l) = (pctTokens l).map (fun t => Sum.inl c :: t) := by
  rw [pctTokens.eq_def]
  split
  all_goals simp_all

theorem pctTokens_pct (a b : Nat) (ha : a < 16) (hb : b < 16) (l : List Char) :
    pctTokens ('%' :: hexChar a :: hexChar b :: l) =
      (pctTokens l).map (fun t => Sum.inr (16 * a + b) :: t) := by
  rw [pctTokens.eq_def]
  simp only [hexVal_hexChar a ha, hexVal_hexChar b hb]

theorem pctTokens_percentByte (b : Nat) (hb : b < 256) (l : List Char) :
    pctTokens (percentByte b ++ l) =
      (pctTokens l).map (fun t => Sum.inr b :: t) := by
  have h1 : b / 16 < 16 := by omega
  have h2 : b % 16 < 16 := by omega
  have h3 : 16 * (b / 16) + b % 16 = b := by omega
  simpa [percentByte, h3] using pctTokens_pct (b / 16) (b % 16) h1 h2 l

theorem pctTokens_bytes (bs : List Nat) (l : List Char)
    (hbs : ∀ b ∈ bs, b < 256) :
    pctTokens (bs.foldr (fun b acc => percentByte b ++ acc) l) =
      (pctTokens l).map (fun t => bs.map Sum.inr ++ t) := by
  induction bs with
  | nil =>
    simp only [List.foldr_nil, List.map_nil, List.nil_append]
    cases pctTokens l <;> rfl
  | cons b bs ih =>
    have hb : b < 256 := hbs b (by simp)
    have ih2 := ih (fun x hx => hbs x (by simp [hx]))
    simp only [List.foldr_cons]
    rw [pctTokens_percentByte b hb, ih2]
    cases pctTokens l <;> simp

theorem utf8Bytes_lt (n : Nat) (hn : n < 1114112) :
    ∀ b ∈ utf8Bytes n, b < 256 := by
  intro b hb
  unfold utf8Bytes at hb
  split at hb
  · simp at hb; omega
  · split at hb
    · simp at hb
      rcases hb with h | h <;> omega
    · split at hb
      · simp at hb
        rcases hb with h | h | h <;> omega
      · simp at hb
        rcases hb with h | h | h | h <;> omega

theorem foldr_percentByte_append (bs : List Nat) (l : List Char) :
    (bs.foldr (fun b acc => percentByte b ++ acc) []) ++ l =
      bs.foldr (fun b acc => percentByte b ++ acc) l := by
  induction bs with
  | nil => rfl
  | cons b bs ih => simp only [List.foldr_cons, List.append_assoc, ih]

theorem pctTokens_encodeChar (c : Char) (l : List Char) :
    pctTokens (encodeChar c ++ l) =
      (pctTokens l).map (fun t => charToks c ++ t) := by
  by_cases hU : isUnreservedChar c
  · have hne : ¬ c = '%' := by
      intro h
      subst h
      simp [isUnreservedChar] at hU
    rw [encodeChar, if_pos hU, charToks, if_pos hU]
    rw [List.cons_append, List.nil_append, pctTokens_cons_ne c l hne]
    rfl
  · have hn : c.toNat < 1114112 := by
      rcases char_valid_nat c with h | h <;> omega
    rw [encodeChar, if_neg hU, charToks, if_neg hU]
    rw [foldr_percentByte_append]
    exact pctTokens_bytes (utf8Bytes c.toNat) l (utf8Bytes_lt c.toNat hn)

theorem pctTokens_encodeList (l : List Char) :
    pctTokens (encodeList l) = some (tokList l) := by
  induction l with
  | nil => rfl
  | cons c l ih =>
    show pctTokens (encodeChar c ++ encodeList l) = _
    rw [pctTokens_encodeChar, ih]
    rfl

theorem utf8Run_byteToks (c : Char) (toks : List Tok) (res : List Char)
    (h : utf8Run none toks = some res) :
    utf8Run none ((utf8Bytes c.toNat).map Sum.inr ++ toks) =
      some (c :: res) := by
  have hv := char_valid_nat c
  set n := c.toNat with hn
  have hofn : Char.ofNat n = c := char_ofNat_toNat c
  by_cases h1 : n < 128
  · rw [utf8Bytes, if_pos h1]
    simp only [List.map_cons, List.map_nil, List.cons_append, List.nil_append]
    simp only [utf8Run]
    rw [if_pos h1, h, hofn]
    rfl
  · by_cases h2 : n < 2048
    · rw [utf8Bytes, if_neg h1, if_pos h2]
      simp only [List.map_cons, List.map_nil, List.cons_append,
        List.nil_append]
      simp only [utf8Run]
      rw [if_neg (by omega), if_pos (by constructor <;> omega)]
      rw [if_pos (by constructor <;> omega), if_true,
        if_pos (by refine ⟨by omega, by omega, by omega⟩)]
      have hcp : (192 + n / 64 - 192) * 64 + (128 + n % 64 - 128) = n := by
        omega
      rw [hcp, h, hofn]
      rfl
    · by_cases h3 : n < 65536
      · rw [utf8Bytes, if_neg h1, if_neg h2, if_pos h3]
        simp only [List.map_cons, List.map_nil, List.cons_append,
          List.nil_append]
        simp only [utf8Run]
        rw [if_neg (by omega), if_neg (by omega),
          if_pos (by constructor <;> omega)]
        rw [if_pos (by constructor <;> omega), if_neg (by omega)]
        rw [if_pos (by constructor <;> omega), if_true]
        have hsur : n < 55296 ∨ 57343 < n := by
          rcases hv with hl | hr
          · exact Or.inl hl
          · exact Or.inr hr.1
        rw [if_pos (by refine ⟨by omega, by omega, by omega⟩)]
        have hcp : ((224 + n / 4096 - 224) * 64 + (128 + n / 64 % 64 - 128)) * 64
            + (128 + n % 64 - 128) = n := by omega
        rw [hcp, h, hofn]
        rfl
      · have h4 : n < 1114112 := by
          rcases hv with hl | hr
          · omega
          · exact hr.2
        rw [utf8Bytes, if_neg h1, if_neg h2, if_neg h3]
        simp only [List.map_cons, List.map_nil, List.cons_append,
          List.nil_append]
        simp only [utf8Run]
        rw [if_neg (by omega), if_neg (by omega), if_neg (by omega),
          if_pos (by constructor <;> omega)]
        rw [if_pos (by constructor <;> omega), if_neg (by omega)]
        rw [if_pos (by constructor <;> omega), if_neg (by omega)]
        rw [if_pos (by constructor <;> omega), if_true]
        rw [if_pos (by refine ⟨by omega, by omega, by omega⟩)]
        have hcp : (((240 + n / 262144 - 240) * 64 + (128 + n / 4096 % 64 - 128)) * 64
            + (128 + n / 64 % 64 - 128)) * 64 + (128 + n % 64 - 128) = n := by
          omega
        rw [hcp, h, hofn]
        rfl

theorem utf8Run_charToks (c : Char) (toks : List Tok) (res : List Char)
    (h : utf8Run none toks = some res) :
    utf8Run none (charToks c ++ toks) = some (c :: res) := by
  by_cases hU : isUnreservedChar c
  · rw [charToks, if_pos hU]
    rw [List.cons_append, List.nil_append]
    simp only [utf8Run]
    rw [h]
    rfl
  · rw [charToks, if_neg hU]
    exact utf8Run_byteToks c toks res h

theorem utf8Run_tokList (l : List Char) :
    utf8Run none (tokList l) = some l := by
  induction l with
  | nil => rfl
  | cons c l ih =>
    show utf8Run none (charToks c ++ tokList l) = _
    exact utf8Run_charToks c (tokList l) l ih

theorem decodeList_encodeList (l : List Char) :
    decodeList (encodeList l) = some l := by
  unfold decodeList
  rw [pctTokens_encodeList]
  show utf8Run none (tokList l) = some l
  exact utf8Run_tokList l

/-- The percent-coding roundtrip used by the proxy when it re-derives an
upstream URL from a rewritten link. -/
theorem decode_encode_URIComponent (s : String) :
    decodeURIComponent (encodeURIComponent s) = some s := by
  unfold decodeURIComponent encodeURIComponent
  show (decodeList (encodeList s.data)).map String.mk = some s
  rw [decodeList_encodeList]
  rfl

/-! ## String utilities (models of the JS string operations used) -/

/-- Model of `String.prototype.startsWith` restricted to the prefixes the
proxy tests. -/
def jsStartsWith (s pat : String) : Bool :=
  pat.data.isPrefixOf s.data

/-- Model of `String.prototype.endsWith`. -/
def jsEndsWith (s pat : String) : Bool :=
  pat.data.reverse.isPrefixOf s.data.reverse

/-- JS whitespace characters trimmed by `String.prototype.trim`
(ASCII portion). -/
def jsWhitespace (c : Char) : Bool :=
  c = ' ' || c = '\t' || c = '\n' || c = '\r' || c = '\x0b' || c = '\x0c'

/-- Model of `String.prototype.trim`. -/
def jsTrim (s : String) : String :=
  String.mk (((s.data.dropWhile jsWhitespace).reverse.dropWhile
    jsWhitespace).reverse)

/-- Split a character list at the first occurrence of a pattern, returning
the parts before and after it. -/
def splitFirstList (pat : List Char) : List Char → Option (List Char × List Char)
  | [] => none
  | c :: rest =>
    if pat.isPrefixOf (c :: rest) then some ([], (c :: rest).drop pat.length)
    else (splitFirstList pat rest).map (fun p => (c :: p.1, p.2))

/-- Split a string at the first occurrence of a nonempty pattern. -/
def splitFirst (s pat : String) : Option (String × String) :=
  (splitFirstList pat.data s.data).map (fun p => (String.mk p.1, String.mk p.2))

/-- Model of `String.prototype.includes`. -/
def containsSubstr (s pat : String) : Bool :=
  (splitFirst s pat).isSome

theorem splitFirstList_eq (pat : List Char) (l a b : List Char)
    (h : splitFirstList pat l = some (a, b)) : l = a ++ pat ++ b := by
  induction l generalizing a b with
  | nil => simp [splitFirstList] at h
  | cons c rest ih =>
    rw [splitFirstList] at h
    by_cases hp : pat.isPrefixOf (c :: rest)
    · rw [if_pos hp] at h
      injection h with h
      injection h with h1 h2
      subst h1
      subst h2
      have hpre : pat <+: (c :: rest) := List.isPrefixOf_iff_prefix.mp hp
      rcases hpre with ⟨t, ht⟩
      rw [List.nil_append, ← ht, List.drop_left]
    · rw [if_neg hp] at h
      cases hsub : splitFirstList pat rest with
      | none => rw [hsub] at h; cases h
      | some p =>
        rw [hsub] at h
        injection h with h
        rcases p with ⟨a', b'⟩
        injection h with h1 h2
        subst h1
        subst h2
        have := ih a' b' hsub
        simp [this]

theorem splitFirst_eq (s pat : String) (a b : String)
    (h : splitFirst s pat = some (a, b)) : s = a ++ pat ++ b := by
  unfold splitFirst at h
  cases hsub : splitFirstList pat.data s.data with
  | none => rw [hsub] at h; cases h
  | some p =>
    rw [hsub] at h
    injection h with h
    rcases p with ⟨a', b'⟩
    injection h with h1 h2
    have hl := splitFirstList_eq pat.data s.data a' b' hsub
    have : s.data = a.data ++ pat.data ++ b.data := by
      rw [hl, ← h1, ← h2]
    show s = String.mk (a.data ++ pat.data ++ b.data)
    rw [← this]

/-- Split a character list at every occurrence of a separator character,
like `String.prototype.split` with a one-character separator. -/
def splitSep (sep : Char) : List Char → List (List Char)
  | [] => [[]]
  | c :: rest =>
    let r := splitSep sep rest
    if c = sep then [] :: r
    else
      match r with
      | x :: xs => (c :: x) :: xs
      | [] => [[c]]

/-- Model of `content.split('\n')`. -/
def splitLines (s : String) : List String :=
  (splitSep '\n' s.data).map String.mk

/-- Model of `lines.join('\n')`. -/
def joinLines : List String → String
  | [] => ""
  | [x] => x
  | x :: xs => x ++ "\n" ++ joinLines xs

/-! ## Model of the WHATWG `URL` constructor (`new URL`) -/

/-- Scheme parsing: characters up to the first `:`, which must be
alphanumeric or `+`/`-`/`.`. -/
def schemeChars : List Char → Option (List Char × List Char)
  | [] => none
  | c :: rest =>
    if c = ':' then some ([], rest)
    else if c.isAlpha || c.isDigit || c = '+' || c = '-' || c = '.' then
      (schemeChars rest).map (fun p => (c :: p.1, p.2))
    else none

/-- Leading scheme of an absolute URL reference, with the remainder after
the colon; `none` when the string has no scheme. -/
def findScheme (s : String) : Option (String × String) :=
  match s.data with
  | [] => none
  | c :: _ =>
    if c.isAlpha then
      (schemeChars s.data).map (fun p => (String.mk p.1, String.mk p.2))
    else none

def lowerAscii (c : Char) : Char :=
  if 'A' ≤ c ∧ c ≤ 'Z' then Char.ofNat (c.toNat + 32) else c

def lowerS (s : String) : String :=
  String.mk (s.data.map lowerAscii)

/-- WHATWG special schemes (they require a nonempty host). -/
def isSpecialScheme (sch : String) : Bool :=
  let l := lowerS sch
  l == "http" || l == "https" || l == "ws" || l == "wss" || l == "ftp" ||
    l == "file"

def dropSlashes (l : List Char) : List Char :=
  l.dropWhile (fun c => c == '/' || c == '\\')

/-- Split an authority remainder into host part and path-query part. -/
def splitHostPath (l : List Char) : List Char × List Char :=
  (l.takeWhile (fun c => !(c == '/' || c == '?' || c == '#' || c == '\\')),
   l.dropWhile (fun c => !(c == '/' || c == '?' || c == '#' || c == '\\')))

/-- Parse a base URL into scheme, host and path (with leading `/`). -/
def parseBase (base : String) : Option (String × String × String) :=
  match findScheme base with
  | none => none
  | some (sch, rest) =>
    if isSpecialScheme sch then
      let rest2 := dropSlashes rest.data
      let (h, p) := splitHostPath rest2
      if h = [] then none
      else some (sch, String.mk h, if p = [] then "/" else String.mk p)
    else none

/-- Path segment normalization (`.` and `..` removal), as performed by the
URL serializer. -/
def normSegs : List (List Char) → List (List Char) → List (List Char)
  | acc, [] => acc.reverse
  | acc, [s] =>
    if s = ['.'] then acc.reverse ++ [[]]
    else if s = ['.', '.'] then (acc.drop 1).reverse ++ [[]]
    else acc.reverse ++ [s]
  | acc, s :: rest =>
    if s = ['.'] then normSegs acc rest
    else if s = ['.', '.'] then normSegs (acc.drop 1) rest
    else normSegs (s :: acc) rest

def joinSlash : List (List Char) → List Char
  | [] => []
  | [x] => x
  | x :: xs => x ++ '/' :: joinSlash xs

def removeDotSegmentsList (l : List Char) : List Char :=
  match splitSep '/' l with
  | [] :: rest => '/' :: joinSlash (normSegs [] rest)
  | _ => l

/-- Normalize the path part of a path-query-fragment string. -/
def normPathQ (p : String) : String :=
  let pp := p.data.takeWhile (fun c => !(c == '?' || c == '#'))
  let suf := p.data.dropWhile (fun c => !(c == '?' || c == '#'))
  String.mk (removeDotSegmentsList pp ++ suf)

/-- Model of `new URL(rel, base).href`: standard relative-URL resolution.
`none` models a thrown `TypeError` ("Invalid URL"). -/
def resolveURL (rel base : String) : Option String :=
  match findScheme rel with
  | some (sch, rest) =>
    if isSpecialScheme sch then
      let rest2 := dropSlashes rest.data
      let (h, p) := splitHostPath rest2
      if h = [] then none
      else some (sch ++ "://" ++ String.mk h ++
        normPathQ (if p = [] then "/" else String.mk p))
    else some rel
  | none =>
    match parseBase base with
    | none => none
    | some (sch, host, bpath) =>
      if jsStartsWith rel "//" then
        let rest2 := dropSlashes rel.data
        let (h, p) := splitHostPath rest2
        if h = [] then none
        else some (sch ++ "://" ++ String.mk h ++
          normPathQ (if p = [] then "/" else String.mk p))
      else if jsStartsWith rel "/" then
        some (sch ++ "://" ++ host ++ normPathQ rel)
      else
        let dir := String.mk ((bpath.data.reverse.dropWhile
          (fun c => c ≠ '/')).reverse)
        let dir := if dir = "" then "/" else dir
        some (sch ++ "://" ++ host ++ normPathQ (dir ++ rel))

/-- Model of the validation `new URL(decodedUrl)`: `true` iff the
constructor does not throw. -/
def isValidURL (s : String) : Bool :=
  match findScheme s with
  | none => false
  | some (sch, rest) =>
    if isSpecialScheme sch then
      !((splitHostPath (dropSlashes rest.data)).1 == [])
    else true

/-- Model of `new URL(s).origin`; `none` models a thrown `TypeError`. -/
def urlOrigin (s : String) : Option String :=
  match findScheme s with
  | none => none
  | some (sch, rest) =>
    if isSpecialScheme sch then
      let (h, _) := splitHostPath (dropSlashes rest.data)
      if h = [] then none else some (lowerS sch ++ "://" ++ String.mk h)
    else some "null"

/-- Model of `url.substring(0, url.lastIndexOf('/') + 1)`. -/
def upToLastSlash (s : String) : String :=
  String.mk ((s.data.reverse.dropWhile (fun c => c ≠ '/')).reverse)

/-! ## Request / response data model -/

/-- The parsed query of the inbound request (`req.query`). -/
structure Query where
  url : Option String
  referer : Option String
deriving DecidableEq

/-- The inbound Node request, with lowercase header names as Node
presents them. -/
structure Req where
  method : String
  query : Query
  headers : List (String × String)
deriving DecidableEq

/-- First-match header lookup (Node collapses duplicate headers). -/
def hdrFirst (hs : List (String × String)) (name : String) : Option String :=
  List.lookup name hs

/-- JavaScript truthiness of an optional string (`undefined` and `""` are
falsy). -/
def truthy : Option String → Option String
  | some s => if s = "" then none else some s
  | none => none

/-- JSON values occurring in the handlers' error bodies. -/
inductive JVal where
  | s (v : String)
  | n (v : Nat)
  | arr (v : List String)
deriving DecidableEq

/-- The body of a client response: empty (`res.end()`), raw text/bytes
(`res.send(...)`) or a JSON object (`res.json({...})`). -/
inductive Body where
  | empty
  | raw (data : String)
  | json (obj : List (String × JVal))
deriving DecidableEq

/-- A finished client response: status, headers in `setHeader` order, and
body. -/
structure Res where
  status : Nat
  headers : List (String × String)
  body : Body
deriving DecidableEq

/-- Value of a response header; the last `setHeader` wins. -/
def getHeaderVal (r : Res) (name : String) : Option String :=
  ((r.headers.filter (fun p => p.1 == name)).getLast?).map (fun p => p.2)

/-- The upstream response delivered by `axios` when it resolves
(`validateStatus: status < 500` admits every status below 500).
`data` holds the body bytes, read back as UTF-8 text. -/
structure UpstreamResponse where
  status : Nat
  statusText : String
  headers : List (String × String)
  data : String
deriving DecidableEq

structure AxiosErrorResponse where
  status : Nat
deriving DecidableEq

/-- The error `axios` rejects with: `code` (e.g. `ECONNABORTED` on
timeout), `message`, and `response` when the upstream answered with a
status ≥ 500. -/
structure AxiosError where
  code : Option String
  message : String
  response : Option AxiosErrorResponse
deriving DecidableEq

/-- The single outbound `axios` call, as an oracle from the outbound
header list to its outcome. -/
def Fetch : Type := List (String × String) → Except AxiosError UpstreamResponse

/-! ## Implementation 1 (`src/api/proxy.js` lines 1-264) -/

def defaultUA : String :=
  "Mozilla/5.0 (Windows NT 10.0; Win64; x64) AppleWebKit/537.36 (KHTML, like Gecko) Chrome/120.0.0.0 Safari/537.36"

def ACAO : String × String := ("Access-Control-Allow-Origin", "*")

/-- Headers set by implementation 1 for the OPTIONS preflight. -/
def corsPre1 : List (String × String) :=
  [ACAO,
   ("Access-Control-Allow-Methods", "GET, OPTIONS"),
   ("Access-Control-Allow-Headers",
    "Range, Content-Type, Accept, Accept-Encoding, Origin, Referer"),
   ("Access-Control-Expose-Headers",
    "Content-Length, Content-Range, Accept-Ranges, Cache-Control, Content-Type"),
   ("Access-Control-Max-Age", "86400")]

/-- CORS headers set on implementation 1's success path (the
expose-headers list additionally contains `ETag`). -/
def corsSucc1 : List (String × String) :=
  [ACAO,
   ("Access-Control-Allow-Methods", "GET, OPTIONS"),
   ("Access-Control-Allow-Headers",
    "Range, Content-Type, Accept, Accept-Encoding, Origin, Referer"),
   ("Access-Control-Expose-Headers",
    "Content-Length, Content-Range, Accept-Ranges, Cache-Control, Content-Type, ETag")]

/-- Model of `PROXY_BASE_URL.replace(/\/$/, '')`: one trailing slash is
removed. -/
def stripTrailingSlash (s : String) : String :=
  if jsEndsWith s "/" then String.mk (s.data.dropLast) else s

/-- Implementation 1's `getProxyBaseUrl`: environment override, else
forwarded-protocol/host reconstruction. -/
def getProxyBaseUrl (envBase : Option String) (req : Req) : String :=
  match envBase with
  | some v => stripTrailingSlash v
  | none =>
    let protocol := (hdrFirst req.headers "x-forwarded-proto").getD "https"
    let host := ((hdrFirst req.headers "x-forwarded-host").orElse
      (fun _ => hdrFirst req.headers "host")).getD "undefined"
    protocol ++ "://" ++ host

/-- Implementation 1's `decodedReferer` (line 75): decode the `referer`
query parameter, or the fixed default.  `none` models the uncaught
`URIError` — the decode sits outside the handler's `try`. -/
def decodedReferer1 : Option String → Option String
  | some r => if r = "" then some "https://megacloud.tv" else decodeURIComponent r
  | none => some "https://megacloud.tv"

/-- The browser-mimicking outbound header set of implementation 1
(lines 79-91). -/
def outboundHeaders1 (req : Req) (decodedReferer : String) : List (String × String) :=
  let base := [
    ("User-Agent", (hdrFirst req.headers "user-agent").getD defaultUA),
    ("Referer", decodedReferer),
    ("Origin", decodedReferer),
    ("Accept", (hdrFirst req.headers "accept").getD "*/*"),
    ("Accept-Language", (hdrFirst req.headers "accept-language").getD "en-US,en;q=0.9"),
    ("Accept-Encoding", (hdrFirst req.headers "accept-encoding").getD "identity")]
  match hdrFirst req.headers "range" with
  | some r => base ++ [("Range", r)]
  | none => base

/-- The self-referencing proxy link both implementations emit. -/
def proxyCall (proxyBaseUrl encodedUrl encodedReferer : String) : String :=
  proxyBaseUrl ++ "/api/proxy?url=" ++ encodedUrl ++ "&referer=" ++ encodedReferer

/-- Implementation 1's `rewriteUriInTag` (lines 250-264): replace the
first `URI="..."` attribute value; on resolution failure the original
tag is returned unchanged. -/
def rewriteUriInTag (tag basePath proxyBaseUrl encodedReferer : String) : String :=
  match splitFirst tag "URI=\"" with
  | none => tag
  | some (before, after) =>
    match splitFirst after "\"" with
    | none => tag
    | some (uri, rest) =>
      if uri = "" then tag
      else
        match (if jsStartsWith uri "http" then some uri
               else resolveURL uri basePath) with
        | none => tag
        | some t =>
          before ++ "URI=\"" ++
            proxyCall proxyBaseUrl (encodeURIComponent t) encodedReferer ++
            "\"" ++ rest

/-- One line of implementation 1's rewrite map (lines 181-202).  A
`.error` models the uncaught `TypeError` thrown by `new URL` on a plain
media-reference line. -/
def rewriteLine1 (basePath proxyBaseUrl encodedReferer line : String) :
    Except String String :=
  let trimmedLine := jsTrim line
  if trimmedLine = "" ∨ jsStartsWith trimmedLine "#" then
    if containsSubstr trimmedLine "URI=\"" then
      .ok (rewriteUriInTag trimmedLine basePath proxyBaseUrl encodedReferer)
    else .ok line
  else
    match (if jsStartsWith trimmedLine "http" then some trimmedLine
           else resolveURL trimmedLine basePath) with
    | none => .error "Invalid URL"
    | some targetUrl =>
      .ok (proxyCall proxyBaseUrl (encodeURIComponent targetUrl) encodedReferer)

def mapLines1 (basePath proxyBaseUrl encodedReferer : String) :
    List String → Except String (List String)
  | [] => .ok []
  | l :: ls =>
    match rewriteLine1 basePath proxyBaseUrl encodedReferer l with
    | .error e => .error e
    | .ok l' =>
      match mapLines1 basePath proxyBaseUrl encodedReferer ls with
      | .error e => .error e
      | .ok ls' => .ok (l' :: ls')

/-- Implementation 1's playlist rewrite (lines 174-205): split on
newlines, rewrite each line, join with newlines. -/
def rewriteM3U8_1 (content basePath proxyBaseUrl encodedReferer : String) :
    Except String String :=
  match mapLines1 basePath proxyBaseUrl encodedReferer (splitLines content) with
  | .error e => .error e
  | .ok ls => .ok (joinLines ls)

/-- Implementation 1's cache-control headers by URL suffix
(lines 154-166). -/
def cacheHeaders1 (decodedUrl : String) : List (String × String) :=
  if jsEndsWith decodedUrl ".ts" ∨ jsEndsWith decodedUrl ".m4s" ∨
      jsEndsWith decodedUrl ".mp4" then
    [("Cache-Control", "public, max-age=31536000, immutable")]
  else if jsEndsWith decodedUrl ".m3u8" ∨ jsEndsWith decodedUrl ".mpd" then
    [("Cache-Control", "no-cache, no-store, must-revalidate"),
     ("Pragma", "no-cache"), ("Expires", "0")]
  else [("Cache-Control", "public, max-age=3600")]

def optHdr (name : String) : Option String → List (String × String)
  | some v => [(name, v)]
  | none => []

/-- Headers assembled on implementation 1's success path
(lines 117-166), in `setHeader` order. -/
def successHeaders1 (decodedUrl : String) (resp : UpstreamResponse) :
    List (String × String) :=
  corsSucc1 ++
  [("Content-Type", (hdrFirst resp.headers "content-type").getD
      "application/octet-stream")] ++
  optHdr "Content-Length" (hdrFirst resp.headers "content-length") ++
  optHdr "Content-Range" (hdrFirst resp.headers "content-range") ++
  [("Accept-Ranges", (hdrFirst resp.headers "accept-ranges").getD "bytes")] ++
  optHdr "ETag" (hdrFirst resp.headers "etag") ++
  optHdr "Last-Modified" (hdrFirst resp.headers "last-modified") ++
  cacheHeaders1 decodedUrl

/-- Implementation 1's `catch` block (lines 211-246).  `preHs` are the
headers already set on `res` before the throw. -/
def catch1 (preHs : List (String × String)) (e : AxiosError)
    (decodedUrl : String) : Res :=
  let hs := preHs ++ [ACAO]
  if e.code = some "ECONNABORTED" then
    ⟨504, hs, .json [("error", .s "Gateway timeout"),
      ("message", .s "Request to upstream timed out"),
      ("url", .s decodedUrl)]⟩
  else if e.code = some "ENOTFOUND" ∨ e.code = some "EAI_AGAIN" then
    ⟨502, hs, .json [("error", .s "DNS lookup failed"),
      ("message", .s "Could not resolve upstream host"),
      ("url", .s decodedUrl)]⟩
  else
    match e.response with
    | some er =>
      ⟨if er.status = 0 then 502 else er.status, hs,
        .json [("error", .s "Upstream error"), ("status", .n er.status),
          ("message", .s e.message), ("url", .s decodedUrl)]⟩
    | none =>
      ⟨500, hs, .json [("error", .s "Internal proxy error"),
        ("message", .s e.message), ("url", .s decodedUrl)]⟩

/-- The `contentType` local of implementation 1 (line 124). -/
abbrev contentType1 (resp : UpstreamResponse) : String :=
  (hdrFirst resp.headers "content-type").getD "application/octet-stream"

/-- The `isM3U8` condition of implementation 1 (lines 169-171). -/
abbrev isM3U8_1 (contentType decodedUrl : String) : Prop :=
  containsSubstr contentType "mpegurl" ∨ containsSubstr contentType "x-mpegurl" ∨
    jsEndsWith decodedUrl ".m3u8"

/-- Implementation 1's `try` block (lines 77-210). -/
def handler1Try (envBase : Option String) (req : Req) (fetch : Fetch)
    (decodedUrl decodedReferer : String) : Res :=
  match fetch (outboundHeaders1 req decodedReferer) with
  | .error e => catch1 [] e decodedUrl
  | .ok response =>
    if response.status ≥ 400 then
      ⟨response.status, [ACAO],
        .json [("error", .s "Upstream error"), ("status", .n response.status),
          ("statusText", .s response.statusText), ("url", .s decodedUrl)]⟩
    else
      let hs := successHeaders1 decodedUrl response
      if isM3U8_1 (contentType1 response) decodedUrl then
        let basePath := upToLastSlash decodedUrl
        let proxyBaseUrl := getProxyBaseUrl envBase req
        let encodedReferer := encodeURIComponent decodedReferer
        match rewriteM3U8_1 response.data basePath proxyBaseUrl encodedReferer with
        | .ok newContent => ⟨response.status, hs, .raw newContent⟩
        | .error em => catch1 hs ⟨none, em, none⟩ decodedUrl
      else ⟨response.status, hs, .raw response.data⟩

/-- Implementation 1's handler (lines 21-247).  A `.error` result models
an exception escaping the handler uncaught. -/
def handler1 (envBase : Option String) (req : Req) (fetch : Fetch) :
    Except String Res :=
  if req.method = "OPTIONS" then .ok ⟨204, corsPre1, .empty⟩
  else if req.method = "GET" then
    match truthy req.query.url with
    | none =>
      .ok ⟨400, [ACAO], .json [("error", .s "URL parameter is required"),
        ("usage", .s "/api/proxy?url=<encoded_url>&referer=<optional_referer>")]⟩
    | some url =>
      match decodeURIComponent url with
      | none =>
        .ok ⟨400, [ACAO], .json [("error", .s "Invalid URL encoding"),
          ("message", .s "URI malformed")]⟩
      | some decodedUrl =>
        if isValidURL decodedUrl then
          match decodedReferer1 req.query.referer with
          | none => .error "URI malformed"
          | some dr => .ok (handler1Try envBase req fetch decodedUrl dr)
        else
          .ok ⟨400, [ACAO], .json [("error", .s "Invalid URL format"),
            ("url", .s decodedUrl)]⟩
  else
    .ok ⟨405, [ACAO], .json [("error", .s "Method not allowed"),
      ("allowedMethods", .arr ["GET", "OPTIONS"])]⟩

/-! ## Implementation 2 (`src/api/proxy.js` lines 265-404) -/

/-- CORS headers implementation 2 sets unconditionally at the start; they
remain on every response it produces. -/
def cors2 : List (String × String) :=
  [ACAO,
   ("Access-Control-Allow-Methods", "GET, OPTIONS"),
   ("Access-Control-Allow-Headers", "Range, Content-Type, Accept, Accept-Encoding"),
   ("Access-Control-Expose-Headers",
    "Content-Length, Content-Range, Accept-Ranges, Cache-Control"),
   ("Access-Control-Max-Age", "86400")]

/-- Implementation 2's fixed outbound header block (lines 296-307). -/
def outboundHeaders2base : List (String × String) :=
  [("User-Agent", defaultUA),
   ("Accept", "*/*"),
   ("Accept-Language", "en-US,en;q=0.9"),
   ("Accept-Encoding", "gzip, deflate, br"),
   ("Connection", "keep-alive"),
   ("Cache-Control", "no-cache"),
   ("Pragma", "no-cache"),
   ("Sec-Fetch-Dest", "empty"),
   ("Sec-Fetch-Mode", "cors"),
   ("Sec-Fetch-Site", "cross-site")]

/-- Implementation 2's outbound headers (lines 296-322).  A `.error`
models an exception thrown while decoding the referer or computing its
origin (caught by the surrounding `try`); the string is the error
message. -/
def outboundHeaders2 (referer : Option String) (range : Option String) :
    Except String (List (String × String)) :=
  match truthy referer with
  | some r =>
    match decodeURIComponent r with
    | none => .error "URI malformed"
    | some dr =>
      match urlOrigin dr with
      | none => .error "Invalid URL"
      | some o =>
        .ok (outboundHeaders2base ++ [("Referer", dr), ("Origin", o)] ++
          optHdr "Range" range)
  | none =>
    .ok (outboundHeaders2base ++
      [("Referer", "https://megacloud.tv"), ("Origin", "https://megacloud.tv")] ++
      optHdr "Range" range)

/-- Implementation 2's `catch` block (lines 392-403). -/
def catch2 (e : AxiosError) : Res :=
  match e.response with
  | some er =>
    ⟨er.status, cors2,
      .json [("error", .s "Upstream error"), ("status", .n er.status)]⟩
  | none => ⟨500, cors2, .json [("error", .s e.message)]⟩

/-- Implementation 2's cache-control headers (lines 352-357): no branch
for other suffixes. -/
def cache2 (decodedUrl : String) : List (String × String) :=
  if jsEndsWith decodedUrl ".ts" ∨ jsEndsWith decodedUrl ".m4s" then
    [("Cache-Control", "public, max-age=31536000, immutable")]
  else if jsEndsWith decodedUrl ".m3u8" then
    [("Cache-Control", "no-cache")]
  else []

/-- One line of implementation 2's rewrite map (lines 370-383): the line
is trimmed first and comment/blank lines are returned trimmed; relative
references are resolved by string concatenation with `basePath`; the raw
`referer` query parameter is what gets percent-encoded into the link. -/
def rewriteLine2 (basePath proxyBase rawReferer line : String) : String :=
  let l := jsTrim line
  if l = "" ∨ jsStartsWith l "#" then l
  else
    let targetUrl := if jsStartsWith l "http" then l else basePath ++ l
    proxyCall proxyBase (encodeURIComponent targetUrl)
      (encodeURIComponent rawReferer)

/-- Implementation 2's playlist rewrite (lines 361-385); total, since
concatenation cannot throw. -/
def rewriteM3U8_2 (content basePath proxyBase rawReferer : String) : String :=
  joinLines ((splitLines content).map (rewriteLine2 basePath proxyBase rawReferer))

/-- Headers assembled after a resolved fetch in implementation 2
(lines 335-357). -/
def successHeaders2 (decodedUrl : String) (resp : UpstreamResponse) :
    List (String × String) :=
  cors2 ++
  [("Content-Type", (hdrFirst resp.headers "content-type").getD
      "application/vnd.apple.mpegurl")] ++
  optHdr "Content-Length" (hdrFirst resp.headers "content-length") ++
  optHdr "Content-Range" (hdrFirst resp.headers "content-range") ++
  [("Accept-Ranges", (hdrFirst resp.headers "accept-ranges").getD "bytes")] ++
  cache2 decodedUrl

/-- The `contentType` local of implementation 2 (line 336). -/
abbrev contentType2 (resp : UpstreamResponse) : String :=
  (hdrFirst resp.headers "content-type").getD "application/vnd.apple.mpegurl"

/-- The rewrite condition of implementation 2 (line 360). -/
abbrev isM3U8_2 (contentType decodedUrl : String) : Prop :=
  containsSubstr contentType "mpegurl" ∨ jsEndsWith decodedUrl ".m3u8"

/-- Implementation 2's response to a resolved fetch (lines 335-390); note
there is no 4xx branch, so 4xx statuses flow through here. -/
def success2 (req : Req) (decodedUrl : String) (resp : UpstreamResponse) : Res :=
  let hs := successHeaders2 decodedUrl resp
  if isM3U8_2 (contentType2 resp) decodedUrl then
    let basePath := upToLastSlash decodedUrl
    let host := ((hdrFirst req.headers "x-forwarded-host").orElse
      (fun _ => hdrFirst req.headers "host")).getD "undefined"
    let protocol := (hdrFirst req.headers "x-forwarded-proto").getD "https"
    let proxyBase := protocol ++ "://" ++ host
    let rawReferer := (truthy req.query.referer).getD "https://megacloud.tv"
    ⟨resp.status, hs, .raw (rewriteM3U8_2 resp.data basePath proxyBase rawReferer)⟩
  else ⟨resp.status, hs, .raw resp.data⟩

/-- Implementation 2's handler (lines 267-404).  Everything after the
url-presence check runs inside one `try`, so this handler never lets an
exception escape. -/
def handler2 (req : Req) (fetch : Fetch) : Except String Res :=
  if req.method = "OPTIONS" then .ok ⟨200, cors2, .empty⟩
  else if req.method = "GET" then
    match truthy req.query.url with
    | none => .ok ⟨400, cors2, .json [("error", .s "URL parameter is required")]⟩
    | some url =>
      match decodeURIComponent url with
      | none => .ok (catch2 ⟨none, "URI malformed", none⟩)
      | some decodedUrl =>
        match outboundHeaders2 req.query.referer (hdrFirst req.headers "range") with
        | .error msg => .ok (catch2 ⟨none, msg, none⟩)
        | .ok hs =>
          match fetch hs with
          | .error e => .ok (catch2 e)
          | .ok resp => .ok (success2 req decodedUrl resp)
  else .ok ⟨405, cors2, .json [("error", .s "Method not allowed")]⟩

deriving instance DecidableEq for Except

/-! ## Shared unfolding lemmas for the two handlers -/

theorem handler1_get (envBase : Option String) (req : Req) (fetch : Fetch)
    (u du dr : String)
    (hm : req.method = "GET") (hu : truthy req.query.url = some u)
    (hd : decodeURIComponent u = some du) (hv : isValidURL du = true)
    (hr : decodedReferer1 req.query.referer = some dr) :
    handler1 envBase req fetch = .ok (handler1Try envBase req fetch du dr) := by
  unfold handler1
  rw [hm]
  rw [if_neg (by decide), if_pos rfl]
  simp only [hu, hd, hr, if_pos hv]

theorem handler2_fetch_ok (req : Req) (fetch : Fetch) (u du : String)
    (hs : List (String × String)) (resp : UpstreamResponse)
    (hm : req.method = "GET") (hu : truthy req.query.url = some u)
    (hd : decodeURIComponent u = some du)
    (hh : outboundHeaders2 req.query.referer (hdrFirst req.headers "range") = .ok hs)
    (hf : fetch hs = .ok resp) :
    handler2 req fetch = .ok (success2 req du resp) := by
  unfold handler2
  rw [hm]
  rw [if_neg (by decide), if_pos rfl]
  simp only [hu, hd, hh, hf]

theorem handler2_fetch_err (req : Req) (fetch : Fetch) (u du : String)
    (hs : List (String × String)) (e : AxiosError)
    (hm : req.method = "GET") (hu : truthy req.query.url = some u)
    (hd : decodeURIComponent u = some du)
    (hh : outboundHeaders2 req.query.referer (hdrFirst req.headers "range") = .ok hs)
    (hf : fetch hs = .error e) :
    handler2 req fetch = .ok (catch2 e) := by
  unfold handler2
  rw [hm]
  rw [if_neg (by decide), if_pos rfl]
  simp only [hu, hd, hh, hf]

/-! ## Claim theorems -/

/-- C9: for every GET request lacking the `url` query parameter, regardless
of the other parameters, headers and upstream behaviour, both handler
implementations return status 400 with a JSON body whose `error` field is
"URL parameter is required", and the response does not depend on the fetch
oracle at all (no upstream fetch is performed). -/
theorem C9_missing_url_400 (envBase : Option String) (req : Req) (f g : Fetch)
    (hm : req.method = "GET") (hu : req.query.url = none) :
    handler1 envBase req f =
      .ok ⟨400, [ACAO], .json [("error", .s "URL parameter is required"),
        ("usage", .s "/api/proxy?url=<encoded_url>&referer=<optional_referer>")]⟩ ∧
    handler2 req f =
      .ok ⟨400, cors2, .json [("error", .s "URL parameter is required")]⟩ ∧
    handler1 envBase req f = handler1 envBase req g ∧
    handler2 req f = handler2 req g := by
  have h1 : ∀ h : Fetch, handler1 envBase req h =
      .ok ⟨400, [ACAO], .json [("error", .s "URL parameter is required"),
        ("usage", .s "/api/proxy?url=<encoded_url>&referer=<optional_referer>")]⟩ := by
    intro h
    unfold handler1
    rw [hm, if_neg (by decide), if_pos rfl, hu]
    rfl
  have h2 : ∀ h : Fetch, handler2 req h =
      .ok ⟨400, cors2, .json [("error", .s "URL parameter is required")]⟩ := by
    intro h
    unfold handler2
    rw [hm, if_neg (by decide), if_pos rfl, hu]
    rfl
  exact ⟨h1 f, h2 f, (h1 f).trans (h1 g).symm, (h2 f).trans (h2 g).symm⟩

/-- Witness for C9 at a concrete request with no `url` parameter and two
different fetch oracles. -/
theorem C9_missing_url_400_witness :
    handler1 none ⟨"GET", ⟨none, some "https://e.com"⟩, [("range", "bytes=0-1")]⟩
        (fun _ => .error ⟨none, "boom", none⟩) =
      .ok ⟨400, [ACAO], .json [("error", .s "URL parameter is required"),
        ("usage", .s "/api/proxy?url=<encoded_url>&referer=<optional_referer>")]⟩ ∧
    handler2 ⟨"GET", ⟨none, some "https://e.com"⟩, [("range", "bytes=0-1")]⟩
        (fun _ => .error ⟨none, "boom", none⟩) =
      .ok ⟨400, cors2, .json [("error", .s "URL parameter is required")]⟩ ∧
    handler1 none ⟨"GET", ⟨none, some "https://e.com"⟩, [("range", "bytes=0-1")]⟩
        (fun _ => .error ⟨none, "boom", none⟩) =
      handler1 none ⟨"GET", ⟨none, some "https://e.com"⟩, [("range", "bytes=0-1")]⟩
        (fun _ => .ok ⟨200, "OK", [], "body"⟩) ∧
    handler2 ⟨"GET", ⟨none, some "https://e.com"⟩, [("range", "bytes=0-1")]⟩
        (fun _ => .error ⟨none, "boom", none⟩) =
      handler2 ⟨"GET", ⟨none, some "https://e.com"⟩, [("range", "bytes=0-1")]⟩
        (fun _ => .ok ⟨200, "OK", [], "body"⟩) :=
  C9_missing_url_400 none ⟨"GET", ⟨none, some "https://e.com"⟩, [("range", "bytes=0-1")]⟩
    (fun _ => .error ⟨none, "boom", none⟩) (fun _ => .ok ⟨200, "OK", [], "body"⟩)
    rfl rfl

/-- C10: a present `referer` query parameter with an invalid percent
encoding makes implementation 1 throw out of the handler uncaught (the
`decodeURIComponent` on line 75 sits outside the `try`), constructing no
response, while implementation 2 catches the same `URIError` inside its
`try` and returns a 500 JSON error (not a 400). -/
theorem C10_bad_referer (envBase : Option String) (req : Req) (fetch : Fetch)
    (u du r : String)
    (hm : req.method = "GET") (hu : truthy req.query.url = some u)
    (hd : decodeURIComponent u = some du) (hv : isValidURL du = true)
    (hr : req.query.referer = some r) (hne : ¬ r = "")
    (hbad : decodeURIComponent r = none) :
    handler1 envBase req fetch = .error "URI malformed" ∧
    handler2 req fetch = .ok ⟨500, cors2, .json [("error", .s "URI malformed")]⟩ := by
  constructor
  · unfold handler1
    rw [hm, if_neg (by decide), if_pos rfl]
    have hdr : decodedReferer1 req.query.referer = none := by
      rw [hr]
      simp only [decodedReferer1, if_neg hne, hbad]
    simp only [hu, hd, if_pos hv, hdr]
  · unfold handler2
    rw [hm, if_neg (by decide), if_pos rfl]
    have hh : outboundHeaders2 req.query.referer (hdrFirst req.headers "range") =
        .error "URI malformed" := by
      unfold outboundHeaders2
      simp only [hr, truthy, if_neg hne, hbad]
    simp only [hu, hd, hh]
    rfl

/-- Witness for C10 at a concrete request whose `referer` parameter is the
invalid percent encoding `"%"`. -/
theorem C10_bad_referer_witness :
    handler1 none ⟨"GET", ⟨some "https%3A%2F%2Fe.com%2Fa.m3u8", some "%"⟩, []⟩
        (fun _ => .ok ⟨200, "OK", [], "body"⟩) = .error "URI malformed" ∧
    handler2 ⟨"GET", ⟨some "https%3A%2F%2Fe.com%2Fa.m3u8", some "%"⟩, []⟩
        (fun _ => .ok ⟨200, "OK", [], "body"⟩) =
      .ok ⟨500, cors2, .json [("error", .s "URI malformed")]⟩ :=
  C10_bad_referer none ⟨"GET", ⟨some "https%3A%2F%2Fe.com%2Fa.m3u8", some "%"⟩, []⟩
    (fun _ => .ok ⟨200, "OK", [], "body"⟩)
    "https%3A%2F%2Fe.com%2Fa.m3u8" "https://e.com/a.m3u8" "%"
    rfl rfl (by decide) (by decide) rfl (by decide) (by decide)

/-! ## Scenario lemmas for the two handlers -/

theorem strAppend_assoc (a b c : String) : (a ++ b) ++ c = a ++ (b ++ c) := by
  show String.mk ((a.data ++ b.data) ++ c.data) =
    String.mk (a.data ++ (b.data ++ c.data))
  rw [List.append_assoc]

theorem handler1Try_fetch_err (envBase : Option String) (req : Req)
    (fetch : Fetch) (du dr : String) (e : AxiosError)
    (hf : fetch (outboundHeaders1 req dr) = .error e) :
    handler1Try envBase req fetch du dr = catch1 [] e du := by
  unfold handler1Try
  rw [hf]

theorem handler1Try_4xx (envBase : Option String) (req : Req) (fetch : Fetch)
    (du dr : String) (resp : UpstreamResponse)
    (hf : fetch (outboundHeaders1 req dr) = .ok resp)
    (h4 : 400 ≤ resp.status) :
    handler1Try envBase req fetch du dr =
      ⟨resp.status, [ACAO],
        .json [("error", .s "Upstream error"), ("status", .n resp.status),
          ("statusText", .s resp.statusText), ("url", .s du)]⟩ := by
  unfold handler1Try
  rw [hf]
  simp only [if_pos h4, ge_iff_le]

theorem handler1Try_raw (envBase : Option String) (req : Req) (fetch : Fetch)
    (du dr : String) (resp : UpstreamResponse)
    (hf : fetch (outboundHeaders1 req dr) = .ok resp)
    (h4 : resp.status < 400)
    (hm3 : ¬ isM3U8_1 (contentType1 resp) du) :
    handler1Try envBase req fetch du dr =
      ⟨resp.status, successHeaders1 du resp, .raw resp.data⟩ := by
  unfold handler1Try
  rw [hf]
  simp only []
  rw [if_neg (by omega), if_neg hm3]

theorem handler1Try_m3u8 (envBase : Option String) (req : Req) (fetch : Fetch)
    (du dr : String) (resp : UpstreamResponse) (nc : String)
    (hf : fetch (outboundHeaders1 req dr) = .ok resp)
    (h4 : resp.status < 400)
    (hm3 : isM3U8_1 (contentType1 resp) du)
    (hrw : rewriteM3U8_1 resp.data (upToLastSlash du)
      (getProxyBaseUrl envBase req) (encodeURIComponent dr) = .ok nc) :
    handler1Try envBase req fetch du dr =
      ⟨resp.status, successHeaders1 du resp, .raw nc⟩ := by
  unfold handler1Try
  rw [hf]
  simp only []
  rw [if_neg (by omega), if_pos hm3, hrw]

theorem handler1Try_m3u8_err (envBase : Option String) (req : Req)
    (fetch : Fetch) (du dr : String) (resp : UpstreamResponse) (em : String)
    (hf : fetch (outboundHeaders1 req dr) = .ok resp)
    (h4 : resp.status < 400)
    (hm3 : isM3U8_1 (contentType1 resp) du)
    (hrw : rewriteM3U8_1 resp.data (upToLastSlash du)
      (getProxyBaseUrl envBase req) (encodeURIComponent dr) = .error em) :
    handler1Try envBase req fetch du dr =
      ⟨500, successHeaders1 du resp ++ [ACAO],
        .json [("error", .s "Internal proxy error"), ("message", .s em),
          ("url", .s du)]⟩ := by
  unfold handler1Try
  rw [hf]
  simp only []
  rw [if_neg (by omega), if_pos hm3, hrw]
  show catch1 (successHeaders1 du resp) ⟨none, em, none⟩ du = _
  unfold catch1
  rw [if_neg (by simp), if_neg (by simp)]

theorem success2_raw (req : Req) (du : String) (resp : UpstreamResponse)
    (hm3 : ¬ isM3U8_2 (contentType2 resp) du) :
    success2 req du resp = ⟨resp.status, successHeaders2 du resp, .raw resp.data⟩ := by
  unfold success2
  simp only []
  rw [if_neg hm3]

theorem success2_m3u8 (req : Req) (du : String) (resp : UpstreamResponse)
    (hm3 : isM3U8_2 (contentType2 resp) du) :
    success2 req du resp =
      ⟨resp.status, successHeaders2 du resp,
        .raw (rewriteM3U8_2 resp.data (upToLastSlash du)
          (((hdrFirst req.headers "x-forwarded-proto").getD "https") ++ "://" ++
            (((hdrFirst req.headers "x-forwarded-host").orElse
              (fun _ => hdrFirst req.headers "host")).getD "undefined"))
          ((truthy req.query.referer).getD "https://megacloud.tv"))⟩ := by
  unfold success2
  simp only []
  rw [if_pos hm3]

/-! ## Line-rewrite lemmas -/

theorem rewriteLine1_keep (basePath p er line : String)
    (h : jsTrim line = "" ∨ (jsStartsWith (jsTrim line) "#" = true ∧
      containsSubstr (jsTrim line) "URI=\"" = false)) :
    rewriteLine1 basePath p er line = .ok line := by
  unfold rewriteLine1
  simp only []
  rcases h with h | ⟨h1, h2⟩
  · rw [if_pos (Or.inl h), if_neg (by rw [h]; decide)]
  · rw [if_pos (Or.inr h1), if_neg (by simp [h2])]

theorem rewriteLine1_tag (basePath p er line : String)
    (h1 : jsStartsWith (jsTrim line) "#" = true)
    (h2 : containsSubstr (jsTrim line) "URI=\"" = true) :
    rewriteLine1 basePath p er line =
      .ok (rewriteUriInTag (jsTrim line) basePath p er) := by
  unfold rewriteLine1
  simp only []
  rw [if_pos (Or.inr h1), if_pos h2]

theorem rewriteLine1_media (basePath p er line t : String)
    (h0 : ¬ jsTrim line = "") (h1 : jsStartsWith (jsTrim line) "#" = false)
    (h2 : jsStartsWith (jsTrim line) "http" = false)
    (h3 : resolveURL (jsTrim line) basePath = some t) :
    rewriteLine1 basePath p er line =
      .ok (proxyCall p (encodeURIComponent t) er) := by
  unfold rewriteLine1
  simp only []
  rw [if_neg (by simp [h0, h1])]
  rw [if_neg (by simp [h2]), h3]

theorem rewriteLine1_err (basePath p er line : String)
    (h0 : ¬ jsTrim line = "") (h1 : jsStartsWith (jsTrim line) "#" = false)
    (h2 : jsStartsWith (jsTrim line) "http" = false)
    (h3 : resolveURL (jsTrim line) basePath = none) :
    rewriteLine1 basePath p er line = .error "Invalid URL" := by
  unfold rewriteLine1
  simp only []
  rw [if_neg (by simp [h0, h1])]
  rw [if_neg (by simp [h2]), h3]

theorem rewriteUriInTag_ok (tag basePath p er before after uri rest t : String)
    (hs1 : splitFirst tag "URI=\"" = some (before, after))
    (hs2 : splitFirst after "\"" = some (uri, rest))
    (hne : ¬ uri = "")
    (hres : (if jsStartsWith uri "http" then some uri
             else resolveURL uri basePath) = some t) :
    rewriteUriInTag tag basePath p er =
      before ++ "URI=\"" ++ proxyCall p (encodeURIComponent t) er ++ "\"" ++ rest ∧
    tag = before ++ "URI=\"" ++ uri ++ "\"" ++ rest := by
  constructor
  · unfold rewriteUriInTag
    simp only [hs1, hs2]
    rw [if_neg hne]
    simp only [hres]
  · have e1 := splitFirst_eq tag "URI=\"" before after hs1
    have e2 := splitFirst_eq after "\"" uri rest hs2
    rw [e1, e2]
    simp only [strAppend_assoc]

theorem rewriteUriInTag_fail (tag basePath p er before after uri rest : String)
    (hs1 : splitFirst tag "URI=\"" = some (before, after))
    (hs2 : splitFirst after "\"" = some (uri, rest))
    (hne : ¬ uri = "")
    (hres : (if jsStartsWith uri "http" then some uri
             else resolveURL uri basePath) = none) :
    rewriteUriInTag tag basePath p er = tag := by
  unfold rewriteUriInTag
  simp only [hs1, hs2]
  rw [if_neg hne]
  simp only [hres]

theorem rewriteLine2_comment (basePath p r line : String)
    (h : jsTrim line = "" ∨ jsStartsWith (jsTrim line) "#" = true) :
    rewriteLine2 basePath p r line = jsTrim line := by
  unfold rewriteLine2
  simp only []
  rw [if_pos h]

theorem rewriteLine2_media (basePath p r line : String)
    (h0 : ¬ jsTrim line = "") (h1 : jsStartsWith (jsTrim line) "#" = false)
    (h2 : jsStartsWith (jsTrim line) "http" = false) :
    rewriteLine2 basePath p r line =
      proxyCall p (encodeURIComponent (basePath ++ jsTrim line))
        (encodeURIComponent r) := by
  unfold rewriteLine2
  simp only []
  rw [if_neg (by simp [h0, h1])]
  rw [if_neg (by simp [h2])]

/-- C3: rewriting is a deterministic function of its inputs — the embedded
rewrite is a pure function, so equal inputs give byte-identical output —
and re-proxying an already-rewritten playlist does not double-encode: the
`url=` parameter of every rewritten link is `encodeURIComponent` of the
absolute target, it percent-decodes back to exactly that absolute URL, and
a follow-up request carrying it makes the handler re-derive precisely the
original absolute upstream URL `t` before any re-encoding. -/
theorem C3_rewrite_stable (envBase : Option String) (req : Req) (fetch : Fetch)
    (content basePath proxyBase encRef t dr : String) :
    decodeURIComponent (encodeURIComponent t) = some t ∧
    (req.method = "GET" → truthy req.query.url = some (encodeURIComponent t) →
      isValidURL t = true → decodedReferer1 req.query.referer = some dr →
      handler1 envBase req fetch = .ok (handler1Try envBase req fetch t dr)) ∧
    rewriteM3U8_1 content basePath proxyBase encRef =
      rewriteM3U8_1 content basePath proxyBase encRef := by
  refine ⟨decode_encode_URIComponent t, ?_, rfl⟩
  intro hm hu hv hr
  exact handler1_get envBase req fetch (encodeURIComponent t) t dr hm hu
    (decode_encode_URIComponent t) hv hr

/-- Witness for C3: a concrete rewritten link's `url=` parameter decodes
back to the absolute upstream URL, and the handler serving that link
re-derives it exactly. -/
theorem C3_rewrite_stable_witness :
    decodeURIComponent (encodeURIComponent
      "https://cdn.example.com/videos/abc/playlist.m3u8") =
      some "https://cdn.example.com/videos/abc/playlist.m3u8" ∧
    handler1 none
        ⟨"GET", ⟨some (encodeURIComponent
          "https://cdn.example.com/videos/abc/playlist.m3u8"), none⟩,
         [("host", "proxy.example")]⟩
        (fun _ => .ok ⟨200, "OK", [], "#EXTM3U"⟩) =
      .ok (handler1Try none
        ⟨"GET", ⟨some (encodeURIComponent
          "https://cdn.example.com/videos/abc/playlist.m3u8"), none⟩,
         [("host", "proxy.example")]⟩
        (fun _ => .ok ⟨200, "OK", [], "#EXTM3U"⟩)
        "https://cdn.example.com/videos/abc/playlist.m3u8" "https://megacloud.tv") := by
  have h := C3_rewrite_stable none
    ⟨"GET", ⟨some (encodeURIComponent
      "https://cdn.example.com/videos/abc/playlist.m3u8"), none⟩,
     [("host", "proxy.example")]⟩
    (fun _ => .ok ⟨200, "OK", [], "#EXTM3U"⟩)
    "" "" "" ""
    "https://cdn.example.com/videos/abc/playlist.m3u8" "https://megacloud.tv"
  exact ⟨h.1, h.2.1 rfl (by decide) (by decide) rfl⟩

/-- C1 (corrected): fail-open recovery holds only for `URI="..."` attribute
values — there `rewriteUriInTag` returns the directive unchanged when
resolution fails — but a plain media-reference line whose resolution
throws makes the per-line map throw, and implementation 1's outer catch
turns the whole response into a 500 "Internal proxy error" JSON body
instead of a rewritten playlist. -/
theorem C1_fail_open_only_for_uri_tags :
    (∀ tag basePath p er before after uri rest : String,
      splitFirst tag "URI=\"" = some (before, after) →
      splitFirst after "\"" = some (uri, rest) →
      ¬ uri = "" →
      (if jsStartsWith uri "http" then some uri
       else resolveURL uri basePath) = none →
      rewriteUriInTag tag basePath p er = tag) ∧
    (∀ basePath p er line : String,
      ¬ jsTrim line = "" → jsStartsWith (jsTrim line) "#" = false →
      jsStartsWith (jsTrim line) "http" = false →
      resolveURL (jsTrim line) basePath = none →
      rewriteLine1 basePath p er line = .error "Invalid URL") ∧
    (∀ (envBase : Option String) (req : Req) (fetch : Fetch)
        (u du dr em : String) (resp : UpstreamResponse),
      req.method = "GET" → truthy req.query.url = some u →
      decodeURIComponent u = some du → isValidURL du = true →
      decodedReferer1 req.query.referer = some dr →
      fetch (outboundHeaders1 req dr) = .ok resp →
      resp.status < 400 →
      isM3U8_1 (contentType1 resp) du →
      rewriteM3U8_1 resp.data (upToLastSlash du) (getProxyBaseUrl envBase req)
        (encodeURIComponent dr) = .error em →
      handler1 envBase req fetch =
        .ok ⟨500, successHeaders1 du resp ++ [ACAO],
          .json [("error", .s "Internal proxy error"), ("message", .s em),
            ("url", .s du)]⟩) := by
  refine ⟨?_, ?_, ?_⟩
  · intro tag basePath p er before after uri rest hs1 hs2 hne hres
    exact rewriteUriInTag_fail tag basePath p er before after uri rest hs1 hs2 hne hres
  · intro basePath p er line h0 h1 h2 h3
    exact rewriteLine1_err basePath p er line h0 h1 h2 h3
  · intro envBase req fetch u du dr em resp hm hu hd hv hr hf h4 hm3 hrw
    rw [handler1_get envBase req fetch u du dr hm hu hd hv hr]
    rw [handler1Try_m3u8_err envBase req fetch du dr resp em hf h4 hm3 hrw]

/-- Witness for C1: the three conjuncts instantiated on the playlist
`"#EXTM3U\n//\nsegment001.ts"`, whose line `"//"` fails standard
resolution against the manifest directory. -/
theorem C1_fail_open_only_for_uri_tags_witness :
    rewriteUriInTag "#EXT-X-KEY:METHOD=AES-128,URI=\"//\""
        "https://cdn.example.com/videos/abc/" "https://proxy.example" "R" =
      "#EXT-X-KEY:METHOD=AES-128,URI=\"//\"" ∧
    rewriteLine1 "https://cdn.example.com/videos/abc/" "https://proxy.example"
        "R" "//" = .error "Invalid URL" ∧
    handler1 none
        ⟨"GET", ⟨some "https%3A%2F%2Fcdn.example.com%2Fvideos%2Fabc%2Fplaylist.m3u8",
          none⟩, [("host", "proxy.example")]⟩
        (fun _ => .ok ⟨200, "OK",
          [("content-type", "application/vnd.apple.mpegurl")],
          "#EXTM3U\n//\nsegment001.ts"⟩) =
      .ok ⟨500,
        successHeaders1 "https://cdn.example.com/videos/abc/playlist.m3u8"
          ⟨200, "OK", [("content-type", "application/vnd.apple.mpegurl")],
            "#EXTM3U\n//\nsegment001.ts"⟩ ++ [ACAO],
        .json [("error", .s "Internal proxy error"), ("message", .s "Invalid URL"),
          ("url", .s "https://cdn.example.com/videos/abc/playlist.m3u8")]⟩ := by
  refine ⟨?_, ?_, ?_⟩
  · exact C1_fail_open_only_for_uri_tags.1 _ _ _ _
      "#EXT-X-KEY:METHOD=AES-128," "//\"" "//" "" (by decide) (by decide)
      (by decide) (by decide)
  · exact C1_fail_open_only_for_uri_tags.2.1 _ _ _ _ (by decide) (by decide)
      (by decide) (by decide)
  · exact C1_fail_open_only_for_uri_tags.2.2 none _ _
      "https%3A%2F%2Fcdn.example.com%2Fvideos%2Fabc%2Fplaylist.m3u8"
      "https://cdn.example.com/videos/abc/playlist.m3u8" "https://megacloud.tv"
      "Invalid URL" _ rfl (by decide) (by decide) (by decide) rfl rfl
      (by decide) (by decide) (by decide)

/-- Counterexample for C1 as stated: for the playlist body
`"#EXTM3U\n//\nsegment001.ts"` the line `"//"` is one whose relative-URL
resolution throws (`new URL("//", base)` fails), yet implementation 1 does
not leave that line unchanged in a full rewritten playlist — it produces a
500 "Internal proxy error" JSON response, aborting the whole response and
surfacing an error to the client. -/
theorem C1_counterexample :
    resolveURL "//" "https://cdn.example.com/videos/abc/" = none ∧
    handler1 none
        ⟨"GET", ⟨some "https%3A%2F%2Fcdn.example.com%2Fvideos%2Fabc%2Fplaylist.m3u8",
          none⟩, [("host", "proxy.example")]⟩
        (fun _ => .ok ⟨200, "OK",
          [("content-type", "application/vnd.apple.mpegurl")],
          "#EXTM3U\n//\nsegment001.ts"⟩) =
      .ok ⟨500,
        successHeaders1 "https://cdn.example.com/videos/abc/playlist.m3u8"
          ⟨200, "OK", [("content-type", "application/vnd.apple.mpegurl")],
            "#EXTM3U\n//\nsegment001.ts"⟩ ++ [ACAO],
        .json [("error", .s "Internal proxy error"), ("message", .s "Invalid URL"),
          ("url", .s "https://cdn.example.com/videos/abc/playlist.m3u8")]⟩ := by
  constructor
  · decide
  · decide

/-- C2 (corrected): the rewrite applies to lines that do not start with the
literal string `"http"` (not: lines that do not start with a scheme).  On
such a line implementation 1 substitutes the percent-encoding of the
line's standard relative-URL resolution against `basePath` (when it
succeeds), while implementation 2 substitutes the percent-encoding of the
plain string concatenation `basePath ++ line`; the two coincide on simple
relative file names such as `segment001.ts`, which yields
`url=https%3A%2F%2Fcdn.example.com%2Fvideos%2Fabc%2Fsegment001.ts`. -/
theorem C2_media_line_rewrite :
    (∀ basePath p er line t : String,
      ¬ jsTrim line = "" → jsStartsWith (jsTrim line) "#" = false →
      jsStartsWith (jsTrim line) "http" = false →
      resolveURL (jsTrim line) basePath = some t →
      rewriteLine1 basePath p er line =
        .ok (proxyCall p (encodeURIComponent t) er)) ∧
    (∀ basePath p r line : String,
      ¬ jsTrim line = "" → jsStartsWith (jsTrim line) "#" = false →
      jsStartsWith (jsTrim line) "http" = false →
      rewriteLine2 basePath p r line =
        proxyCall p (encodeURIComponent (basePath ++ jsTrim line))
          (encodeURIComponent r)) ∧
    (∀ p er : String,
      rewriteLine1 "https://cdn.example.com/videos/abc/" p er "segment001.ts" =
        .ok (proxyCall p
          "https%3A%2F%2Fcdn.example.com%2Fvideos%2Fabc%2Fsegment001.ts" er)) ∧
    (∀ p r : String,
      rewriteLine2 "https://cdn.example.com/videos/abc/" p r "segment001.ts" =
        proxyCall p "https%3A%2F%2Fcdn.example.com%2Fvideos%2Fabc%2Fsegment001.ts"
          (encodeURIComponent r)) := by
  refine ⟨rewriteLine1_media, rewriteLine2_media, ?_, ?_⟩
  · intro p er
    have h := rewriteLine1_media "https://cdn.example.com/videos/abc/" p er
      "segment001.ts" "https://cdn.example.com/videos/abc/segment001.ts"
      (by decide) (by decide) (by decide) (by decide)
    rw [h]
    rw [show encodeURIComponent "https://cdn.example.com/videos/abc/segment001.ts" =
      "https%3A%2F%2Fcdn.example.com%2Fvideos%2Fabc%2Fsegment001.ts" from by decide]
  · intro p r
    have h := rewriteLine2_media "https://cdn.example.com/videos/abc/" p r
      "segment001.ts" (by decide) (by decide) (by decide)
    rw [h]
    rw [show encodeURIComponent ("https://cdn.example.com/videos/abc/" ++
        jsTrim "segment001.ts") =
      "https%3A%2F%2Fcdn.example.com%2Fvideos%2Fabc%2Fsegment001.ts" from by decide]

/-- Witness for C2: the two universal conjuncts instantiated at the
specification's own example line and base. -/
theorem C2_media_line_rewrite_witness :
    rewriteLine1 "https://cdn.example.com/videos/abc/" "https://proxy.example"
        "R" "segment001.ts" =
      .ok (proxyCall "https://proxy.example"
        (encodeURIComponent "https://cdn.example.com/videos/abc/segment001.ts") "R") ∧
    rewriteLine2 "https://cdn.example.com/videos/abc/" "https://proxy.example"
        "R" "segment001.ts" =
      proxyCall "https://proxy.example"
        (encodeURIComponent ("https://cdn.example.com/videos/abc/" ++
          jsTrim "segment001.ts"))
        (encodeURIComponent "R") :=
  ⟨C2_media_line_rewrite.1 "https://cdn.example.com/videos/abc/"
      "https://proxy.example" "R" "segment001.ts"
      "https://cdn.example.com/videos/abc/segment001.ts"
      (by decide) (by decide) (by decide) (by decide),
   C2_media_line_rewrite.2.1 "https://cdn.example.com/videos/abc/"
      "https://proxy.example" "R" "segment001.ts"
      (by decide) (by decide) (by decide)⟩

/-- Counterexample for C2 as stated: the line `httpx.ts` does not start
with a scheme, so the claim requires it to be resolved against `basePath`
before encoding; both implementations instead test `startsWith('http')`,
treat it as already absolute and emit `url=httpx.ts` — not the encoding of
the resolved URL.  Also, for the root-relative line `/seg.ts`,
implementation 2 emits the encoding of the concatenation
`.../videos/abc//seg.ts`, not of the standard resolution
`https://cdn.example.com/seg.ts`. -/
theorem C2_counterexample :
    rewriteLine1 "https://cdn.example.com/videos/abc/" "https://proxy.example"
        "REF" "httpx.ts" =
      .ok "https://proxy.example/api/proxy?url=httpx.ts&referer=REF" ∧
    resolveURL "httpx.ts" "https://cdn.example.com/videos/abc/" =
      some "https://cdn.example.com/videos/abc/httpx.ts" ∧
    ¬ "httpx.ts" =
      encodeURIComponent "https://cdn.example.com/videos/abc/httpx.ts" ∧
    rewriteLine2 "https://cdn.example.com/videos/abc/" "https://proxy.example"
        "REF" "/seg.ts" =
      "https://proxy.example/api/proxy?url=https%3A%2F%2Fcdn.example.com%2Fvideos%2Fabc%2F%2Fseg.ts&referer=REF" ∧
    resolveURL "/seg.ts" "https://cdn.example.com/videos/abc/" =
      some "https://cdn.example.com/seg.ts" ∧
    ¬ "https%3A%2F%2Fcdn.example.com%2Fvideos%2Fabc%2F%2Fseg.ts" =
      encodeURIComponent "https://cdn.example.com/seg.ts" := by
  refine ⟨by decide, by decide, by decide, by decide, by decide, by decide⟩

/-- C4 (corrected): in implementation 1 the claim holds — blank lines and
directive lines without a `URI="..."` attribute pass through byte-for-byte
(surrounding whitespace included), and on a directive with a `URI="..."`
attribute only the quoted value is replaced, every other character of the
directive being preserved (for the claim's example line the rewritten
directive keeps all its text around the new quoted value).  Implementation
2, however, emits comment and blank lines trimmed and never rewrites
`URI="..."` attributes. -/
theorem C4_directive_handling :
    (∀ basePath p er line : String,
      jsTrim line = "" ∨ (jsStartsWith (jsTrim line) "#" = true ∧
        containsSubstr (jsTrim line) "URI=\"" = false) →
      rewriteLine1 basePath p er line = .ok line) ∧
    (∀ tag basePath p er before after uri rest t : String,
      splitFirst tag "URI=\"" = some (before, after) →
      splitFirst after "\"" = some (uri, rest) →
      ¬ uri = "" →
      (if jsStartsWith uri "http" then some uri
       else resolveURL uri basePath) = some t →
      rewriteUriInTag tag basePath p er =
        before ++ "URI=\"" ++ proxyCall p (encodeURIComponent t) er ++ "\"" ++ rest ∧
      tag = before ++ "URI=\"" ++ uri ++ "\"" ++ rest) ∧
    (∀ p er : String,
      rewriteLine1 "https://cdn.example.com/videos/abc/" p er
          "#EXT-X-KEY:METHOD=AES-128,URI=\"key.bin\"" =
        .ok ("#EXT-X-KEY:METHOD=AES-128," ++ "URI=\"" ++
          proxyCall p "https%3A%2F%2Fcdn.example.com%2Fvideos%2Fabc%2Fkey.bin" er ++
          "\"" ++ "")) ∧
    (∀ basePath p r line : String,
      jsTrim line = "" ∨ jsStartsWith (jsTrim line) "#" = true →
      rewriteLine2 basePath p r line = jsTrim line) := by
  refine ⟨rewriteLine1_keep, rewriteUriInTag_ok, ?_, rewriteLine2_comment⟩
  intro p er
  rw [rewriteLine1_tag "https://cdn.example.com/videos/abc/" p er
    "#EXT-X-KEY:METHOD=AES-128,URI=\"key.bin\"" (by decide) (by decide)]
  rw [show jsTrim "#EXT-X-KEY:METHOD=AES-128,URI=\"key.bin\"" =
    "#EXT-X-KEY:METHOD=AES-128,URI=\"key.bin\"" from by decide]
  have h := (rewriteUriInTag_ok "#EXT-X-KEY:METHOD=AES-128,URI=\"key.bin\""
    "https://cdn.example.com/videos/abc/" p er
    "#EXT-X-KEY:METHOD=AES-128," "key.bin\"" "key.bin" ""
    "https://cdn.example.com/videos/abc/key.bin"
    (by decide) (by decide) (by decide) (by decide)).1
  rw [h]
  rw [show encodeURIComponent "https://cdn.example.com/videos/abc/key.bin" =
    "https%3A%2F%2Fcdn.example.com%2Fvideos%2Fabc%2Fkey.bin" from by decide]

/-- Witness for C4: the four conjuncts instantiated at concrete lines —
a whitespace-padded comment, the specification's key directive, and a
blank line. -/
theorem C4_directive_handling_witness :
    rewriteLine1 "https://cdn.example.com/videos/abc/" "https://proxy.example"
        "R" "  #EXTM3U  " = .ok "  #EXTM3U  " ∧
    rewriteUriInTag "#EXT-X-KEY:METHOD=AES-128,URI=\"key.bin\""
        "https://cdn.example.com/videos/abc/" "https://proxy.example" "R" =
      "#EXT-X-KEY:METHOD=AES-128," ++ "URI=\"" ++
        proxyCall "https://proxy.example"
          (encodeURIComponent "https://cdn.example.com/videos/abc/key.bin") "R" ++
        "\"" ++ "" ∧
    rewriteLine2 "https://cdn.example.com/videos/abc/" "https://proxy.example"
        "R" "" = jsTrim "" :=
  ⟨C4_directive_handling.1 "https://cdn.example.com/videos/abc/"
      "https://proxy.example" "R" "  #EXTM3U  " (Or.inr ⟨by decide, by decide⟩),
   (C4_directive_handling.2.1 "#EXT-X-KEY:METHOD=AES-128,URI=\"key.bin\""
      "https://cdn.example.com/videos/abc/" "https://proxy.example" "R"
      "#EXT-X-KEY:METHOD=AES-128," "key.bin\"" "key.bin" ""
      "https://cdn.example.com/videos/abc/key.bin"
      (by decide) (by decide) (by decide) (by decide)).1,
   C4_directive_handling.2.2.2 "https://cdn.example.com/videos/abc/"
      "https://proxy.example" "R" "" (Or.inl (by decide))⟩

/-- Counterexample for C4 as stated: implementation 2 returns the
whitespace-padded comment line `"  #EXTM3U"` trimmed — not exactly
unchanged — and leaves the claim's example directive
`#EXT-X-KEY:METHOD=AES-128,URI="key.bin"` entirely unrewritten: the quoted
value is not replaced by a proxy call. -/
theorem C4_counterexample :
    rewriteLine2 "https://cdn.example.com/videos/abc/" "https://proxy.example"
        "R" "  #EXTM3U" = "#EXTM3U" ∧
    ¬ ("#EXTM3U" : String) = "  #EXTM3U" ∧
    rewriteLine2 "https://cdn.example.com/videos/abc/" "https://proxy.example"
        "R" "#EXT-X-KEY:METHOD=AES-128,URI=\"key.bin\"" =
      "#EXT-X-KEY:METHOD=AES-128,URI=\"key.bin\"" := by
  refine ⟨by decide, by decide, by decide⟩

/-- C5 (corrected): for an upstream status in [400,499] implementation 1
behaves as claimed — no throw, no 500, the original status is returned
with a JSON error body carrying `status`, `statusText` and the target URL.
Implementation 2 has no 4xx branch and never builds a JSON error body: it
returns the original upstream status, with the raw upstream body when the
response is not playlist-typed, and — when the content type contains
`mpegurl` or the URL ends in `.m3u8` — with the upstream error body run
through the rewriter instead (each non-comment line of the 4xx body is
turned into a proxy link). -/
theorem C5_upstream_4xx :
    (∀ (envBase : Option String) (req : Req) (fetch : Fetch)
        (u du dr : String) (resp : UpstreamResponse),
      req.method = "GET" → truthy req.query.url = some u →
      decodeURIComponent u = some du → isValidURL du = true →
      decodedReferer1 req.query.referer = some dr →
      fetch (outboundHeaders1 req dr) = .ok resp →
      400 ≤ resp.status → resp.status ≤ 499 →
      handler1 envBase req fetch =
        .ok ⟨resp.status, [ACAO],
          .json [("error", .s "Upstream error"), ("status", .n resp.status),
            ("statusText", .s resp.statusText), ("url", .s du)]⟩) ∧
    (∀ (req : Req) (fetch : Fetch) (u du : String)
        (hs : List (String × String)) (resp : UpstreamResponse),
      req.method = "GET" → truthy req.query.url = some u →
      decodeURIComponent u = some du →
      outboundHeaders2 req.query.referer (hdrFirst req.headers "range") = .ok hs →
      fetch hs = .ok resp →
      400 ≤ resp.status → resp.status ≤ 499 →
      ¬ isM3U8_2 (contentType2 resp) du →
      handler2 req fetch =
        .ok ⟨resp.status, successHeaders2 du resp, .raw resp.data⟩) ∧
    (∀ (req : Req) (fetch : Fetch) (u du : String)
        (hs : List (String × String)) (resp : UpstreamResponse),
      req.method = "GET" → truthy req.query.url = some u →
      decodeURIComponent u = some du →
      outboundHeaders2 req.query.referer (hdrFirst req.headers "range") = .ok hs →
      fetch hs = .ok resp →
      400 ≤ resp.status → resp.status ≤ 499 →
      isM3U8_2 (contentType2 resp) du →
      handler2 req fetch =
        .ok ⟨resp.status, successHeaders2 du resp,
          .raw (rewriteM3U8_2 resp.data (upToLastSlash du)
            (((hdrFirst req.headers "x-forwarded-proto").getD "https") ++ "://" ++
              (((hdrFirst req.headers "x-forwarded-host").orElse
                (fun _ => hdrFirst req.headers "host")).getD "undefined"))
            ((truthy req.query.referer).getD "https://megacloud.tv"))⟩) := by
  refine ⟨?_, ?_, ?_⟩
  · intro envBase req fetch u du dr resp hm hu hd hv hr hf h4 _
    rw [handler1_get envBase req fetch u du dr hm hu hd hv hr]
    rw [handler1Try_4xx envBase req fetch du dr resp hf h4]
  · intro req fetch u du hs resp hm hu hd hh hf _ _ hm3
    rw [handler2_fetch_ok req fetch u du hs resp hm hu hd hh hf]
    rw [success2_raw req du resp hm3]
  · intro req fetch u du hs resp hm hu hd hh hf _ _ hm3
    rw [handler2_fetch_ok req fetch u du hs resp hm hu hd hh hf]
    rw [success2_m3u8 req du resp hm3]

/-- Witness for C5: a concrete upstream 403 through both handlers — on a
`.ts` URL implementation 2 passes the raw body through, and on a `.m3u8`
URL it rewrites the 403 error body into a proxy link. -/
theorem C5_upstream_4xx_witness :
    handler1 none
        ⟨"GET", ⟨some "https%3A%2F%2Fcdn.example.com%2Fvideos%2Fabc%2Fseg1.ts",
          none⟩, [("host", "proxy.example")]⟩
        (fun _ => .ok ⟨403, "Forbidden", [("content-type", "text/plain")], "denied"⟩) =
      .ok ⟨403, [ACAO],
        .json [("error", .s "Upstream error"), ("status", .n 403),
          ("statusText", .s "Forbidden"),
          ("url", .s "https://cdn.example.com/videos/abc/seg1.ts")]⟩ ∧
    handler2
        ⟨"GET", ⟨some "https%3A%2F%2Fcdn.example.com%2Fvideos%2Fabc%2Fseg1.ts",
          none⟩, [("host", "proxy.example")]⟩
        (fun _ => .ok ⟨403, "Forbidden", [("content-type", "text/plain")], "denied"⟩) =
      .ok ⟨403,
        successHeaders2 "https://cdn.example.com/videos/abc/seg1.ts"
          ⟨403, "Forbidden", [("content-type", "text/plain")], "denied"⟩,
        .raw "denied"⟩ ∧
    handler2
        ⟨"GET", ⟨some "https%3A%2F%2Fcdn.example.com%2Fvideos%2Fabc%2Fplaylist.m3u8",
          none⟩, [("host", "proxy.example")]⟩
        (fun _ => .ok ⟨403, "Forbidden", [("content-type", "text/plain")], "denied"⟩) =
      .ok ⟨403,
        successHeaders2 "https://cdn.example.com/videos/abc/playlist.m3u8"
          ⟨403, "Forbidden", [("content-type", "text/plain")], "denied"⟩,
        .raw "https://proxy.example/api/proxy?url=https%3A%2F%2Fcdn.example.com%2Fvideos%2Fabc%2Fdenied&referer=https%3A%2F%2Fmegacloud.tv"⟩ :=
  ⟨C5_upstream_4xx.1 none
      ⟨"GET", ⟨some "https%3A%2F%2Fcdn.example.com%2Fvideos%2Fabc%2Fseg1.ts",
        none⟩, [("host", "proxy.example")]⟩
      (fun _ => .ok ⟨403, "Forbidden", [("content-type", "text/plain")], "denied"⟩)
      "https%3A%2F%2Fcdn.example.com%2Fvideos%2Fabc%2Fseg1.ts"
      "https://cdn.example.com/videos/abc/seg1.ts" "https://megacloud.tv"
      ⟨403, "Forbidden", [("content-type", "text/plain")], "denied"⟩
      rfl (by decide) (by decide) (by decide) rfl rfl (by decide) (by decide),
   C5_upstream_4xx.2.1
      ⟨"GET", ⟨some "https%3A%2F%2Fcdn.example.com%2Fvideos%2Fabc%2Fseg1.ts",
        none⟩, [("host", "proxy.example")]⟩
      (fun _ => .ok ⟨403, "Forbidden", [("content-type", "text/plain")], "denied"⟩)
      "https%3A%2F%2Fcdn.example.com%2Fvideos%2Fabc%2Fseg1.ts"
      "https://cdn.example.com/videos/abc/seg1.ts"
      (outboundHeaders2base ++
        [("Referer", "https://megacloud.tv"), ("Origin", "https://megacloud.tv")] ++ [])
      ⟨403, "Forbidden", [("content-type", "text/plain")], "denied"⟩
      rfl (by decide) (by decide) (by decide) rfl (by decide) (by decide)
      (by decide),
   (C5_upstream_4xx.2.2
      ⟨"GET", ⟨some "https%3A%2F%2Fcdn.example.com%2Fvideos%2Fabc%2Fplaylist.m3u8",
        none⟩, [("host", "proxy.example")]⟩
      (fun _ => .ok ⟨403, "Forbidden", [("content-type", "text/plain")], "denied"⟩)
      "https%3A%2F%2Fcdn.example.com%2Fvideos%2Fabc%2Fplaylist.m3u8"
      "https://cdn.example.com/videos/abc/playlist.m3u8"
      (outboundHeaders2base ++
        [("Referer", "https://megacloud.tv"), ("Origin", "https://megacloud.tv")] ++ [])
      ⟨403, "Forbidden", [("content-type", "text/plain")], "denied"⟩
      rfl (by decide) (by decide) (by decide) rfl (by decide) (by decide)
      (by decide)).trans (by decide)⟩

/-- Counterexample for C5 as stated: implementation 2 answers an upstream
403 with status 403 but never with a JSON error body carrying
`status: 403` as the claim requires — on a `.ts` URL it forwards the raw
upstream body `"denied"`, and on a `.m3u8` URL it even rewrites the 403
error body into a proxy link. -/
theorem C5_counterexample :
    handler2
        ⟨"GET", ⟨some "https%3A%2F%2Fcdn.example.com%2Fvideos%2Fabc%2Fseg1.ts",
          none⟩, [("host", "proxy.example")]⟩
        (fun _ => .ok ⟨403, "Forbidden", [("content-type", "text/plain")], "denied"⟩) =
      .ok ⟨403,
        successHeaders2 "https://cdn.example.com/videos/abc/seg1.ts"
          ⟨403, "Forbidden", [("content-type", "text/plain")], "denied"⟩,
        .raw "denied"⟩ ∧
    ¬ (Body.raw "denied" =
        Body.json [("error", .s "Upstream error"), ("status", .n 403),
          ("statusText", .s "Forbidden"),
          ("url", .s "https://cdn.example.com/videos/abc/seg1.ts")]) ∧
    handler2
        ⟨"GET", ⟨some "https%3A%2F%2Fcdn.example.com%2Fvideos%2Fabc%2Fplaylist.m3u8",
          none⟩, [("host", "proxy.example")]⟩
        (fun _ => .ok ⟨403, "Forbidden", [("content-type", "text/plain")], "denied"⟩) =
      .ok ⟨403,
        successHeaders2 "https://cdn.example.com/videos/abc/playlist.m3u8"
          ⟨403, "Forbidden", [("content-type", "text/plain")], "denied"⟩,
        .raw "https://proxy.example/api/proxy?url=https%3A%2F%2Fcdn.example.com%2Fvideos%2Fabc%2Fdenied&referer=https%3A%2F%2Fmegacloud.tv"⟩ ∧
    ¬ ("https://proxy.example/api/proxy?url=https%3A%2F%2Fcdn.example.com%2Fvideos%2Fabc%2Fdenied&referer=https%3A%2F%2Fmegacloud.tv" : String) =
      "denied" := by
  exact ⟨by decide, by decide, by decide, by decide⟩

/-- C7 (corrected): implementation 1 maps an `ECONNABORTED` axios error
(the 30-second timeout) to HTTP 504 with a "Gateway timeout" JSON body,
as claimed; implementation 2 has no timeout branch — a timeout error
carries no `response`, so its catch falls through to a 500 JSON body whose
`error` field is just the axios message. -/
theorem C7_timeout :
    (∀ (envBase : Option String) (req : Req) (fetch : Fetch)
        (u du dr : String) (e : AxiosError),
      req.method = "GET" → truthy req.query.url = some u →
      decodeURIComponent u = some du → isValidURL du = true →
      decodedReferer1 req.query.referer = some dr →
      fetch (outboundHeaders1 req dr) = .error e →
      e.code = some "ECONNABORTED" →
      handler1 envBase req fetch =
        .ok ⟨504, [ACAO],
          .json [("error", .s "Gateway timeout"),
            ("message", .s "Request to upstream timed out"), ("url", .s du)]⟩) ∧
    (∀ (req : Req) (fetch : Fetch) (u du : String)
        (hs : List (String × String)) (e : AxiosError),
      req.method = "GET" → truthy req.query.url = some u →
      decodeURIComponent u = some du →
      outboundHeaders2 req.query.referer (hdrFirst req.headers "range") = .ok hs →
      fetch hs = .error e →
      e.code = some "ECONNABORTED" → e.response = none →
      handler2 req fetch = .ok ⟨500, cors2, .json [("error", .s e.message)]⟩) := by
  constructor
  · intro envBase req fetch u du dr e hm hu hd hv hr hf hc
    rw [handler1_get envBase req fetch u du dr hm hu hd hv hr]
    rw [handler1Try_fetch_err envBase req fetch du dr e hf]
    unfold catch1
    rw [if_pos hc]
    rfl
  · intro req fetch u du hs e hm hu hd hh hf _ hnr
    rw [handler2_fetch_err req fetch u du hs e hm hu hd hh hf]
    unfold catch2
    rw [hnr]

/-- Witness for C7: a concrete timeout error through both handlers. -/
theorem C7_timeout_witness :
    handler1 none
        ⟨"GET", ⟨some "https%3A%2F%2Fcdn.example.com%2Fvideos%2Fabc%2Fseg1.ts",
          none⟩, [("host", "proxy.example")]⟩
        (fun _ => .error ⟨some "ECONNABORTED", "timeout of 30000ms exceeded", none⟩) =
      .ok ⟨504, [ACAO],
        .json [("error", .s "Gateway timeout"),
          ("message", .s "Request to upstream timed out"),
          ("url", .s "https://cdn.example.com/videos/abc/seg1.ts")]⟩ ∧
    handler2
        ⟨"GET", ⟨some "https%3A%2F%2Fcdn.example.com%2Fvideos%2Fabc%2Fseg1.ts",
          none⟩, [("host", "proxy.example")]⟩
        (fun _ => .error ⟨some "ECONNABORTED", "timeout of 30000ms exceeded", none⟩) =
      .ok ⟨500, cors2, .json [("error", .s "timeout of 30000ms exceeded")]⟩ :=
  ⟨C7_timeout.1 none
      ⟨"GET", ⟨some "https%3A%2F%2Fcdn.example.com%2Fvideos%2Fabc%2Fseg1.ts",
        none⟩, [("host", "proxy.example")]⟩
      (fun _ => .error ⟨some "ECONNABORTED", "timeout of 30000ms exceeded", none⟩)
      "https%3A%2F%2Fcdn.example.com%2Fvideos%2Fabc%2Fseg1.ts"
      "https://cdn.example.com/videos/abc/seg1.ts" "https://megacloud.tv"
      ⟨some "ECONNABORTED", "timeout of 30000ms exceeded", none⟩
      rfl (by decide) (by decide) (by decide) rfl rfl rfl,
   C7_timeout.2
      ⟨"GET", ⟨some "https%3A%2F%2Fcdn.example.com%2Fvideos%2Fabc%2Fseg1.ts",
        none⟩, [("host", "proxy.example")]⟩
      (fun _ => .error ⟨some "ECONNABORTED", "timeout of 30000ms exceeded", none⟩)
      "https%3A%2F%2Fcdn.example.com%2Fvideos%2Fabc%2Fseg1.ts"
      "https://cdn.example.com/videos/abc/seg1.ts"
      (outboundHeaders2base ++
        [("Referer", "https://megacloud.tv"), ("Origin", "https://megacloud.tv")] ++ [])
      ⟨some "ECONNABORTED", "timeout of 30000ms exceeded", none⟩
      rfl (by decide) (by decide) (by decide) rfl rfl rfl⟩

/-- Counterexample for C7 as stated: a timed-out outbound fetch
(`ECONNABORTED`) through implementation 2 yields HTTP 500 with the axios
message as `error` — not HTTP 504 with a gateway-timeout `error`. -/
theorem C7_counterexample :
    handler2
        ⟨"GET", ⟨some "https%3A%2F%2Fcdn.example.com%2Fvideos%2Fabc%2Fseg1.ts",
          none⟩, [("host", "proxy.example")]⟩
        (fun _ => .error ⟨some "ECONNABORTED", "timeout of 30000ms exceeded", none⟩) =
      .ok ⟨500, cors2, .json [("error", .s "timeout of 30000ms exceeded")]⟩ ∧
    ¬ (500 : Nat) = 504 := by
  exact ⟨by decide, by decide⟩

/-- C6 (corrected): in implementation 1 the invariant holds — the
`Referer` header sent upstream is the decoded referer `dr`, the rewrite
embeds `encodeURIComponent dr` as the `referer=` parameter of every
rewritten link (`handler1Try` passes the same `dr` to `outboundHeaders1`
and to `encodeURIComponent`), and that parameter percent-decodes back to
exactly `dr`.  In implementation 2 the embedded parameter is
`encodeURIComponent` of the raw `referer` query parameter, which decodes
to the raw parameter — equal to the decoded value sent upstream only when
the parameter contains no percent escapes. -/
theorem C6_referer_invariant :
    (∀ (req : Req) (rq : Option String) (dr : String),
      decodedReferer1 rq = some dr →
      hdrFirst (outboundHeaders1 req dr) "Referer" = some dr ∧
      decodeURIComponent (encodeURIComponent dr) = some dr) ∧
    (∀ basePath p line t dr : String,
      ¬ jsTrim line = "" → jsStartsWith (jsTrim line) "#" = false →
      jsStartsWith (jsTrim line) "http" = false →
      resolveURL (jsTrim line) basePath = some t →
      rewriteLine1 basePath p (encodeURIComponent dr) line =
        .ok (proxyCall p (encodeURIComponent t) (encodeURIComponent dr))) ∧
    (∀ rawRef : String,
      decodeURIComponent (encodeURIComponent rawRef) = some rawRef) := by
  refine ⟨?_, ?_, decode_encode_URIComponent⟩
  · intro req rq dr _
    constructor
    · unfold outboundHeaders1
      cases hrange : hdrFirst req.headers "range" <;> rfl
    · exact decode_encode_URIComponent dr
  · intro basePath p line t dr h0 h1 h2 h3
    exact rewriteLine1_media basePath p (encodeURIComponent dr) line t h0 h1 h2 h3

/-- Witness for C6: concrete referer `https://e.com` (arriving encoded as
the query parameter `https%3A%2F%2Fe.com`) through implementation 1. -/
theorem C6_referer_invariant_witness :
    hdrFirst (outboundHeaders1
        ⟨"GET", ⟨some "u", some "https%3A%2F%2Fe.com"⟩, []⟩ "https://e.com")
        "Referer" = some "https://e.com" ∧
    decodeURIComponent (encodeURIComponent "https://e.com") = some "https://e.com" ∧
    rewriteLine1 "https://cdn.example.com/videos/abc/" "https://proxy.example"
        (encodeURIComponent "https://e.com") "segment001.ts" =
      .ok (proxyCall "https://proxy.example"
        (encodeURIComponent "https://cdn.example.com/videos/abc/segment001.ts")
        (encodeURIComponent "https://e.com")) := by
  have h1 := C6_referer_invariant.1
    ⟨"GET", ⟨some "u", some "https%3A%2F%2Fe.com"⟩, []⟩
    (some "https%3A%2F%2Fe.com") "https://e.com" (by decide)
  have h2 := C6_referer_invariant.2.1 "https://cdn.example.com/videos/abc/"
    "https://proxy.example" "segment001.ts"
    "https://cdn.example.com/videos/abc/segment001.ts" "https://e.com"
    (by decide) (by decide) (by decide) (by decide)
  exact ⟨h1.1, h1.2, h2⟩

/-- Counterexample for C6 as stated: with the referer query parameter
`https%3A%2F%2Fe.com`, implementation 2 sends the decoded `https://e.com`
upstream as `Referer` but embeds
`referer=https%253A%252F%252Fe.com` in rewritten links; that parameter
percent-decodes to `https%3A%2F%2Fe.com`, which is not the referer the
upstream fetch presented. -/
theorem C6_counterexample :
    outboundHeaders2 (some "https%3A%2F%2Fe.com") none =
      .ok (outboundHeaders2base ++
        [("Referer", "https://e.com"), ("Origin", "https://e.com")] ++ []) ∧
    rewriteLine2 "https://cdn.example.com/videos/abc/" "https://proxy.example"
        "https%3A%2F%2Fe.com" "seg1.ts" =
      "https://proxy.example/api/proxy?url=https%3A%2F%2Fcdn.example.com%2Fvideos%2Fabc%2Fseg1.ts&referer=https%253A%252F%252Fe.com" ∧
    decodeURIComponent "https%253A%252F%252Fe.com" = some "https%3A%2F%2Fe.com" ∧
    ¬ ("https%3A%2F%2Fe.com" : String) = "https://e.com" := by
  refine ⟨by decide, by decide, by decide, by decide⟩

/-! ## Cache-control header computation lemmas -/

theorem filter_cc_successHeaders1 (du : String) (resp : UpstreamResponse) :
    (successHeaders1 du resp).filter (fun p => p.1 == "Cache-Control") =
      (cacheHeaders1 du).filter (fun p => p.1 == "Cache-Control") := by
  unfold successHeaders1
  cases hdrFirst resp.headers "content-type" <;>
  cases hdrFirst resp.headers "content-length" <;>
  cases hdrFirst resp.headers "content-range" <;>
  cases hdrFirst resp.headers "accept-ranges" <;>
  cases hdrFirst resp.headers "etag" <;>
  cases hdrFirst resp.headers "last-modified" <;>
    simp [optHdr, corsSucc1, ACAO, List.filter_append, List.filter]

theorem filter_cc_successHeaders2 (du : String) (resp : UpstreamResponse) :
    (successHeaders2 du resp).filter (fun p => p.1 == "Cache-Control") =
      (cache2 du).filter (fun p => p.1 == "Cache-Control") := by
  unfold successHeaders2
  cases hdrFirst resp.headers "content-type" <;>
  cases hdrFirst resp.headers "content-length" <;>
  cases hdrFirst resp.headers "content-range" <;>
  cases hdrFirst resp.headers "accept-ranges" <;>
    simp [optHdr, cors2, ACAO, List.filter_append, List.filter]

theorem getHeaderVal_cc_1 (s : Nat) (b : Body) (du : String)
    (resp : UpstreamResponse) :
    getHeaderVal ⟨s, successHeaders1 du resp, b⟩ "Cache-Control" =
      (((cacheHeaders1 du).filter (fun p => p.1 == "Cache-Control")).getLast?).map
        (fun p => p.2) := by
  unfold getHeaderVal
  rw [filter_cc_successHeaders1]

theorem getHeaderVal_cc_2 (s : Nat) (b : Body) (du : String)
    (resp : UpstreamResponse) :
    getHeaderVal ⟨s, successHeaders2 du resp, b⟩ "Cache-Control" =
      (((cache2 du).filter (fun p => p.1 == "Cache-Control")).getLast?).map
        (fun p => p.2) := by
  unfold getHeaderVal
  rw [filter_cc_successHeaders2]

/-- C8 (corrected): implementation 1 sets `Cache-Control` on every
successful response exactly as claimed — the immutable year-long policy
for `.ts`/`.m4s`/`.mp4`, the no-cache policy for `.m3u8`/`.mpd`, and
`public, max-age=3600` otherwise.  Implementation 2 sets the immutable
policy only for `.ts`/`.m4s`, plain `no-cache` only for `.m3u8`, and no
`Cache-Control` header at all in every other case (including `.mp4` and
`.mpd`). -/
theorem C8_cache_control :
    (∀ (envBase : Option String) (req : Req) (fetch : Fetch)
        (u du dr : String) (resp : UpstreamResponse),
      req.method = "GET" → truthy req.query.url = some u →
      decodeURIComponent u = some du → isValidURL du = true →
      decodedReferer1 req.query.referer = some dr →
      fetch (outboundHeaders1 req dr) = .ok resp → resp.status < 400 →
      (¬ isM3U8_1 (contentType1 resp) du →
        handler1 envBase req fetch =
          .ok ⟨resp.status, successHeaders1 du resp, .raw resp.data⟩) ∧
      (∀ nc : String, isM3U8_1 (contentType1 resp) du →
        rewriteM3U8_1 resp.data (upToLastSlash du) (getProxyBaseUrl envBase req)
          (encodeURIComponent dr) = .ok nc →
        handler1 envBase req fetch =
          .ok ⟨resp.status, successHeaders1 du resp, .raw nc⟩)) ∧
    (∀ (s : Nat) (b : Body) (du : String) (resp : UpstreamResponse),
      (jsEndsWith du ".ts" = true ∨ jsEndsWith du ".m4s" = true ∨
        jsEndsWith du ".mp4" = true) →
      getHeaderVal ⟨s, successHeaders1 du resp, b⟩ "Cache-Control" =
        some "public, max-age=31536000, immutable") ∧
    (∀ (s : Nat) (b : Body) (du : String) (resp : UpstreamResponse),
      ¬ (jsEndsWith du ".ts" = true ∨ jsEndsWith du ".m4s" = true ∨
        jsEndsWith du ".mp4" = true) →
      (jsEndsWith du ".m3u8" = true ∨ jsEndsWith du ".mpd" = true) →
      getHeaderVal ⟨s, successHeaders1 du resp, b⟩ "Cache-Control" =
        some "no-cache, no-store, must-revalidate") ∧
    (∀ (s : Nat) (b : Body) (du : String) (resp : UpstreamResponse),
      ¬ (jsEndsWith du ".ts" = true ∨ jsEndsWith du ".m4s" = true ∨
        jsEndsWith du ".mp4" = true) →
      ¬ (jsEndsWith du ".m3u8" = true ∨ jsEndsWith du ".mpd" = true) →
      getHeaderVal ⟨s, successHeaders1 du resp, b⟩ "Cache-Control" =
        some "public, max-age=3600") ∧
    (∀ (s : Nat) (b : Body) (du : String) (resp : UpstreamResponse),
      (jsEndsWith du ".ts" = true ∨ jsEndsWith du ".m4s" = true →
        getHeaderVal ⟨s, successHeaders2 du resp, b⟩ "Cache-Control" =
          some "public, max-age=31536000, immutable") ∧
      (¬ (jsEndsWith du ".ts" = true ∨ jsEndsWith du ".m4s" = true) →
        jsEndsWith du ".m3u8" = true →
        getHeaderVal ⟨s, successHeaders2 du resp, b⟩ "Cache-Control" =
          some "no-cache") ∧
      (¬ (jsEndsWith du ".ts" = true ∨ jsEndsWith du ".m4s" = true) →
        ¬ jsEndsWith du ".m3u8" = true →
        getHeaderVal ⟨s, successHeaders2 du resp, b⟩ "Cache-Control" = none)) := by
  refine ⟨?_, ?_, ?_, ?_, ?_⟩
  · intro envBase req fetch u du dr resp hm hu hd hv hr hf h4
    constructor
    · intro hm3
      rw [handler1_get envBase req fetch u du dr hm hu hd hv hr]
      rw [handler1Try_raw envBase req fetch du dr resp hf h4 hm3]
    · intro nc hm3 hrw
      rw [handler1_get envBase req fetch u du dr hm hu hd hv hr]
      rw [handler1Try_m3u8 envBase req fetch du dr resp nc hf h4 hm3 hrw]
  · intro s b du resp hsuf
    rw [getHeaderVal_cc_1]
    unfold cacheHeaders1
    rw [if_pos hsuf]
    decide
  · intro s b du resp hsuf1 hsuf2
    rw [getHeaderVal_cc_1]
    unfold cacheHeaders1
    rw [if_neg hsuf1, if_pos hsuf2]
    decide
  · intro s b du resp hsuf1 hsuf2
    rw [getHeaderVal_cc_1]
    unfold cacheHeaders1
    rw [if_neg hsuf1, if_neg hsuf2]
    decide
  · intro s b du resp
    refine ⟨?_, ?_, ?_⟩
    · intro hsuf
      rw [getHeaderVal_cc_2]
      unfold cache2
      rw [if_pos hsuf]
      decide
    · intro hsuf1 hsuf2
      rw [getHeaderVal_cc_2]
      unfold cache2
      rw [if_neg hsuf1, if_pos hsuf2]
      decide
    · intro hsuf1 hsuf2
      rw [getHeaderVal_cc_2]
      unfold cache2
      rw [if_neg hsuf1, if_neg hsuf2]
      decide

/-- Witness for C8: concrete responses through both implementations —
a `.ts` segment gets the immutable policy from implementation 1, a
`.m3u8` playlist the no-cache policy, and implementation 2 leaves a
`.mp4` response without any `Cache-Control` header. -/
theorem C8_cache_control_witness :
    handler1 none
        ⟨"GET", ⟨some "https%3A%2F%2Fcdn.example.com%2Fvideos%2Fabc%2Fseg1.ts",
          none⟩, [("host", "proxy.example")]⟩
        (fun _ => .ok ⟨200, "OK", [("content-type", "video/mp2t")], "BINARY"⟩) =
      .ok ⟨200,
        successHeaders1 "https://cdn.example.com/videos/abc/seg1.ts"
          ⟨200, "OK", [("content-type", "video/mp2t")], "BINARY"⟩,
        .raw "BINARY"⟩ ∧
    getHeaderVal ⟨200,
        successHeaders1 "https://cdn.example.com/videos/abc/seg1.ts"
          ⟨200, "OK", [("content-type", "video/mp2t")], "BINARY"⟩,
        .raw "BINARY"⟩ "Cache-Control" =
      some "public, max-age=31536000, immutable" ∧
    getHeaderVal ⟨200,
        successHeaders1 "https://cdn.example.com/videos/abc/playlist.m3u8"
          ⟨200, "OK", [("content-type", "application/vnd.apple.mpegurl")], "#EXTM3U"⟩,
        .raw "#EXTM3U"⟩ "Cache-Control" =
      some "no-cache, no-store, must-revalidate" ∧
    getHeaderVal ⟨200,
        successHeaders2 "https://cdn.example.com/videos/abc/clip.mp4"
          ⟨200, "OK", [("content-type", "video/mp4")], "DATA"⟩,
        .raw "DATA"⟩ "Cache-Control" = none := by
  refine ⟨?_, ?_, ?_, ?_⟩
  · exact (C8_cache_control.1 none
      ⟨"GET", ⟨some "https%3A%2F%2Fcdn.example.com%2Fvideos%2Fabc%2Fseg1.ts",
        none⟩, [("host", "proxy.example")]⟩
      (fun _ => .ok ⟨200, "OK", [("content-type", "video/mp2t")], "BINARY"⟩)
      "https%3A%2F%2Fcdn.example.com%2Fvideos%2Fabc%2Fseg1.ts"
      "https://cdn.example.com/videos/abc/seg1.ts" "https://megacloud.tv"
      ⟨200, "OK", [("content-type", "video/mp2t")], "BINARY"⟩
      rfl (by decide) (by decide) (by decide) rfl rfl (by decide)).1 (by decide)
  · exact C8_cache_control.2.1 200 (.raw "BINARY")
      "https://cdn.example.com/videos/abc/seg1.ts"
      ⟨200, "OK", [("content-type", "video/mp2t")], "BINARY"⟩
      (Or.inl (by decide))
  · exact C8_cache_control.2.2.1 200 (.raw "#EXTM3U")
      "https://cdn.example.com/videos/abc/playlist.m3u8"
      ⟨200, "OK", [("content-type", "application/vnd.apple.mpegurl")], "#EXTM3U"⟩
      (by decide) (Or.inl (by decide))
  · exact (C8_cache_control.2.2.2.2 200 (.raw "DATA")
      "https://cdn.example.com/videos/abc/clip.mp4"
      ⟨200, "OK", [("content-type", "video/mp4")], "DATA"⟩).2.2
      (by decide) (by decide)

/-- Counterexample for C8 as stated: a successful `.mp4` response through
implementation 2 carries no `Cache-Control` header at all, while the claim
requires `public, max-age=31536000, immutable` for every successful
response whose decoded URL ends in `.mp4`. -/
theorem C8_counterexample :
    handler2
        ⟨"GET", ⟨some "https%3A%2F%2Fcdn.example.com%2Fvideos%2Fabc%2Fclip.mp4",
          none⟩, [("host", "proxy.example")]⟩
        (fun _ => .ok ⟨200, "OK", [("content-type", "video/mp4")], "DATA"⟩) =
      .ok ⟨200,
        successHeaders2 "https://cdn.example.com/videos/abc/clip.mp4"
          ⟨200, "OK", [("content-type", "video/mp4")], "DATA"⟩,
        .raw "DATA"⟩ ∧
    getHeaderVal ⟨200,
        successHeaders2 "https://cdn.example.com/videos/abc/clip.mp4"
          ⟨200, "OK", [("content-type", "video/mp4")], "DATA"⟩,
        .raw "DATA"⟩ "Cache-Control" = none ∧
    ¬ (none : Option String) = some "public, max-age=31536000, immutable" := by
  refine ⟨by decide, by decide, by decide⟩
